import Mathlib

/-!
Verification of the demand-tracking backend (`src/server.js`) of the
GestordemandaZA repository.  The source file contains two concatenated copies
of the server; where the two copies declare the same function, JavaScript
function hoisting makes the later declaration the effective one
(`normalizarDadosDemanda` at lines 1940-2002), and Express dispatches a
request to the first registered route handler, so for duplicated routes the
handler registered first (lines 750-983) is the effective one.  The embedding
below follows those effective definitions, as cited by the claims.

JavaScript values are modelled by the inductive type `JVal` (numbers are
modelled as integers: every numeric literal appearing in the relevant code
paths is an integer, and `NaN` has its own constructor; fractional floats are
outside the model).  JavaScript objects are association lists `JObj` where
property assignment updates the value in place, preserving key order, exactly
as JS property assignment does.  `JSON.parse` and `JSON.stringify` are
modelled by the executable `jsonParse` and `jsonStringify` below.
-/

/-- Model of a JavaScript value as it occurs in the server code:
null, undefined, NaN, booleans, (integer) numbers, strings, arrays
and plain objects. -/
inductive JVal : Type where
  | jnull : JVal
  | jundef : JVal
  | jnan : JVal
  | jbool : Bool → JVal
  | jnum : Int → JVal
  | jstr : String → JVal
  | jarr : List JVal → JVal
  | jobj : List (String × JVal) → JVal
deriving Repr

/-- A JavaScript object: an ordered association list of properties. -/
abbrev JObj := List (String × JVal)

namespace JVal

/-- Structural (deep) equality on modelled JS values. -/
def beq : JVal → JVal → Bool
  | .jnull, .jnull => true
  | .jundef, .jundef => true
  | .jnan, .jnan => true
  | .jbool a, .jbool b => a == b
  | .jnum a, .jnum b => a == b
  | .jstr a, .jstr b => a == b
  | .jarr xs, .jarr ys => beqList xs ys
  | .jobj xs, .jobj ys => beqObj xs ys
  | _, _ => false
where
  beqList : List JVal → List JVal → Bool
    | [], [] => true
    | x :: xs, y :: ys => beq x y && beqList xs ys
    | _, _ => false
  beqObj : List (String × JVal) → List (String × JVal) → Bool
    | [], [] => true
    | (k, v) :: xs, (k2, v2) :: ys => k == k2 && beq v v2 && beqObj xs ys
    | _, _ => false

instance : BEq JVal := ⟨beq⟩

/-- `Array.isArray` of the source. -/
def isArray : JVal → Bool
  | .jarr _ => true
  | _ => false

/-- `typeof v === 'string'` of the source. -/
def isString : JVal → Bool
  | .jstr _ => true
  | _ => false

end JVal

/-- JavaScript truthiness (`Boolean(v)`, `if (v)`, `v || w`):
false exactly for `false`, `0`, `NaN`, the empty string, `null` and
`undefined`. -/
def truthy : JVal → Bool
  | .jnull => false
  | .jundef => false
  | .jnan => false
  | .jbool b => b
  | .jnum n => n != 0
  | .jstr s => s ≠ ""
  | .jarr _ => true
  | .jobj _ => true

/-- JavaScript `a || b` on modelled values. -/
def jor (a b : JVal) : JVal := if truthy a then a else b

/-- Property read `o.k`: the value of the first binding of `k`,
`undefined` when the property is absent. -/
def jget : JObj → String → JVal
  | [], _ => .jundef
  | (k2, v) :: rest, k => if k2 = k then v else jget rest k

/-- Property assignment `o.k = v`: update the existing binding in place
(preserving key order) or append a new binding at the end, exactly as
JavaScript property assignment orders keys. -/
def jset : JObj → String → JVal → JObj
  | [], k, v => [(k, v)]
  | (k2, v2) :: rest, k, v =>
      if k2 = k then (k, v) :: rest else (k2, v2) :: jset rest k v

/-- Whether the object has a binding for `k` (`k in o`). -/
def jhas : JObj → String → Bool
  | [], _ => false
  | (k2, _) :: rest, k => k2 == k || jhas rest k

/-- JavaScript object spread `\x7b...a, ...b\x7d`: properties of `a`
in order, overwritten or extended by the properties of `b`. -/
def jspread (a b : JObj) : JObj := b.foldl (fun acc p => jset acc p.1 p.2) a

/-! ## JSON parsing (`JSON.parse`)

An executable model of `JSON.parse`.  Numeric literals are modelled for
integer mantissas only (a fractional or exponent literal is outside the
model and is treated as a parse failure); every other part of the JSON
grammar - whitespace, `null`, booleans, strings with escapes, arrays,
objects, leading-zero rejection - follows the JSON specification that
`JSON.parse` implements. -/

/-- Skip JSON whitespace. -/
def skipWs : List Char → List Char
  | c :: cs => if c = ' ' ∨ c = '\n' ∨ c = '\t' ∨ c = '\r' then skipWs cs else c :: cs
  | [] => []

/-- One-character JSON string escapes. -/
def escChar : Char → Option Char
  | '"' => some '"'
  | '\\' => some '\\'
  | '/' => some '/'
  | 'b' => some (Char.ofNat 8)
  | 'f' => some (Char.ofNat 12)
  | 'n' => some '\n'
  | 'r' => some '\r'
  | 't' => some '\t'
  | _ => none

/-- Value of a hexadecimal digit. -/
def hexVal (c : Char) : Option Nat :=
  if '0' ≤ c ∧ c ≤ '9' then some (c.toNat - 48)
  else if 'a' ≤ c ∧ c ≤ 'f' then some (c.toNat - 87)
  else if 'A' ≤ c ∧ c ≤ 'F' then some (c.toNat - 55)
  else none

/-- Parse the body of a JSON string (after the opening quote), returning
the decoded characters and the rest of the input. -/
def parseStringBody : List Char → Option (List Char × List Char)
  | [] => none
  | '"' :: rest => some ([], rest)
  | '\\' :: 'u' :: h1 :: h2 :: h3 :: h4 :: rest =>
      match hexVal h1, hexVal h2, hexVal h3, hexVal h4 with
      | some a, some b, some c, some d =>
          (parseStringBody rest).map
            (fun p => (Char.ofNat (((a * 16 + b) * 16 + c) * 16 + d) :: p.1, p.2))
      | _, _, _, _ => none
  | '\\' :: e :: rest =>
      match escChar e with
      | some c => (parseStringBody rest).map (fun p => (c :: p.1, p.2))
      | none => none
  | c :: rest =>
      if c.toNat < 32 then none
      else (parseStringBody rest).map (fun p => (c :: p.1, p.2))

/-- Decimal value of a digit list. -/
def natOfDigits (ds : List Char) : Nat :=
  ds.foldl (fun a c => a * 10 + (c.toNat - 48)) 0

/-- Parse a JSON integer literal (optional minus, digits, no leading zero);
a fractional or exponent continuation is outside the model. -/
def parseNumber (cs : List Char) : Option (JVal × List Char) :=
  let (neg, cs2) := match cs with
    | '-' :: rest => (true, rest)
    | _ => (false, cs)
  let ds := cs2.takeWhile Char.isDigit
  let rest := cs2.dropWhile Char.isDigit
  if ds = [] then none
  else if ds.length > 1 ∧ ds.headD '0' = '0' then none
  else match rest with
    | '.' :: _ => none
    | 'e' :: _ => none
    | 'E' :: _ => none
    | _ =>
      let n : Int := natOfDigits ds
      some (.jnum (if neg then -n else n), rest)

mutual

/-- Parse one JSON value (fuelled recursive-descent). -/
def parseVal : Nat → List Char → Option (JVal × List Char)
  | 0, _ => none
  | fuel + 1, cs =>
    match skipWs cs with
    | [] => none
    | 'n' :: 'u' :: 'l' :: 'l' :: rest => some (.jnull, rest)
    | 't' :: 'r' :: 'u' :: 'e' :: rest => some (.jbool true, rest)
    | 'f' :: 'a' :: 'l' :: 's' :: 'e' :: rest => some (.jbool false, rest)
    | '"' :: rest => (parseStringBody rest).map (fun p => (.jstr ⟨p.1⟩, p.2))
    | '[' :: rest =>
        (match skipWs rest with
         | ']' :: r2 => some (.jarr [], r2)
         | r2 => (parseElems fuel r2).map (fun p => (.jarr p.1, p.2)))
    | '{' :: rest =>
        (match skipWs rest with
         | '}' :: r2 => some (.jobj [], r2)
         | r2 => (parseFields fuel r2).map (fun p => (.jobj p.1, p.2)))
    | c :: rest =>
        if c = '-' ∨ c.isDigit then parseNumber (c :: rest) else none

/-- Parse the comma-separated elements of a (non-empty) JSON array. -/
def parseElems : Nat → List Char → Option (List JVal × List Char)
  | 0, _ => none
  | fuel + 1, cs =>
    match parseVal fuel cs with
    | none => none
    | some (v, rest) =>
      match skipWs rest with
      | ',' :: r2 => (parseElems fuel r2).map (fun p => (v :: p.1, p.2))
      | ']' :: r2 => some ([v], r2)
      | _ => none

/-- Parse the comma-separated members of a (non-empty) JSON object. -/
def parseFields : Nat → List Char → Option (List (String × JVal) × List Char)
  | 0, _ => none
  | fuel + 1, cs =>
    match skipWs cs with
    | '"' :: rest =>
      (match parseStringBody rest with
       | none => none
       | some (key, r2) =>
         match skipWs r2 with
         | ':' :: r3 =>
           (match parseVal fuel r3 with
            | none => none
            | some (v, r4) =>
              match skipWs r4 with
              | ',' :: r5 => (parseFields fuel r5).map (fun p => ((⟨key⟩, v) :: p.1, p.2))
              | '}' :: r5 => some ([(⟨key⟩, v)], r5)
              | _ => none)
         | _ => none)
    | _ => none

end

/-- Model of `JSON.parse`: `none` models a thrown `SyntaxError`. -/
def jsonParse (s : String) : Option JVal :=
  match parseVal (s.length + 2) s.data with
  | some (v, rest) => if skipWs rest = [] then some v else none
  | none => none

/-! ## JSON serialization (`JSON.stringify`) -/

/-- Decimal digit character. -/
def digitChar (n : Nat) : Char := Char.ofNat (48 + n)

/-- Decimal digits of a natural number (fuelled; models the decimal
rendering JavaScript performs in template strings and `JSON.stringify`). -/
def natDigits : Nat → Nat → List Char
  | 0, _ => []
  | fuel + 1, n =>
      if n < 10 then [digitChar n]
      else natDigits fuel (n / 10) ++ [digitChar (n % 10)]

/-- Decimal rendering of a natural number. -/
def natRepr (n : Nat) : String := ⟨natDigits (n + 1) n⟩

/-- Decimal rendering of an integer. -/
def intRepr (n : Int) : String :=
  if n < 0 then "-" ++ natRepr n.natAbs else natRepr n.natAbs

/-- JSON string escaping used by `JSON.stringify`. -/
def jsonEscapeChar (c : Char) : List Char :=
  if c = '"' then ['\\', '"']
  else if c = '\\' then ['\\', '\\']
  else if c = '\n' then ['\\', 'n']
  else if c = '\r' then ['\\', 'r']
  else if c = '\t' then ['\\', 't']
  else if c.toNat = 8 then ['\\', 'b']
  else if c.toNat = 12 then ['\\', 'f']
  else if c.toNat < 32 then
    ['\\', 'u', '0', '0', digitChar (c.toNat / 16), digitChar (c.toNat % 16)]
  else [c]

/-- Escape a string for JSON output. -/
def jsonEscape (s : String) : String := ⟨s.data.flatMap jsonEscapeChar⟩

/-- Model of `JSON.stringify` on the values the server serializes:
object properties with `undefined` values are skipped (as `JSON.stringify`
does) and `NaN` serializes as `null`.  A top-level `undefined` never
reaches a serialization site in the modelled handlers. -/
def jsonStringify : JVal → String
  | .jnull => "null"
  | .jundef => "null"
  | .jnan => "null"
  | .jbool b => if b then "true" else "false"
  | .jnum n => intRepr n
  | .jstr s => "\"" ++ jsonEscape s ++ "\""
  | .jarr xs => "[" ++ String.intercalate "," (stringifyList xs) ++ "]"
  | .jobj fs => "\x7b" ++ String.intercalate "," (stringifyFields fs) ++ "\x7d"
where
  stringifyList : List JVal → List String
    | [] => []
    | x :: xs => jsonStringify x :: stringifyList xs
  stringifyFields : List (String × JVal) → List String
    | [] => []
    | (_, .jundef) :: fs => stringifyFields fs
    | (k, v) :: fs =>
        ("\"" ++ jsonEscape k ++ "\":" ++ jsonStringify v) :: stringifyFields fs

/-! ## The field normalizer (`normalizarDadosDemanda`, src/server.js lines 1940-2002)

The effective (hoisted) definition of `normalizarDadosDemanda`.  For each of
the five list-valued fields the source runs:
if the stored value is a string, `JSON.parse` it and on a thrown error
substitute `[]`; otherwise, if it is not an array, substitute `[]`;
otherwise leave it unchanged.  `isRotina` is coerced with `Boolean(...)`. -/

/-- One list-valued field normalization step of `normalizarDadosDemanda`. -/
def normalizarCampoLista (v : JVal) : JVal :=
  if v.isString then
    match v with
    | .jstr s =>
        (match jsonParse s with
         | some w => w
         | none => .jarr [])
    | _ => .jarr []
  else if !v.isArray then .jarr []
  else v

/-- The five JSON-encoded list fields, in the order the source
normalizes them (`isRotina` is coerced between `atribuidos` and
`anexosCriacao`). -/
def camposLista : List String :=
  ["diasSemana", "atribuidos", "anexosCriacao", "anexosResolucao", "comentariosUsuarios"]

/-- `normalizarDadosDemanda` (effective second declaration, lines
1940-2002) restricted to object inputs; `if (!demanda) return demanda`
returns falsy non-objects unchanged and the claims quantify over demand
objects. -/
def normalizarDadosDemanda (demanda : JObj) : JObj :=
  let d1 := jset demanda "diasSemana" (normalizarCampoLista (jget demanda "diasSemana"))
  let d2 := jset d1 "atribuidos" (normalizarCampoLista (jget d1 "atribuidos"))
  let d3 := jset d2 "isRotina" (.jbool (truthy (jget d2 "isRotina")))
  let d4 := jset d3 "anexosCriacao" (normalizarCampoLista (jget d3 "anexosCriacao"))
  let d5 := jset d4 "anexosResolucao" (normalizarCampoLista (jget d4 "anexosResolucao"))
  jset d5 "comentariosUsuarios" (normalizarCampoLista (jget d5 "comentariosUsuarios"))

example : jget (normalizarDadosDemanda [("diasSemana", .jstr "[1,2]")]) "diasSemana"
    = .jarr [.jnum 1, .jnum 2] := by rfl

example : jget (normalizarDadosDemanda [("diasSemana", .jstr "not json")]) "diasSemana"
    = .jarr [] := by rfl

example : jget (normalizarDadosDemanda [("diasSemana", .jstr "5")]) "diasSemana"
    = .jnum 5 := by rfl

example : jget (normalizarDadosDemanda []) "isRotina" = .jbool false := by rfl

example : jget (normalizarDadosDemanda [("isRotina", .jstr "0")]) "isRotina"
    = .jbool true := by rfl

example : jsonParse "\x7b\"id\":5,\"nome\":\"ana\"\x7d"
    = some (.jobj [("id", .jnum 5), ("nome", .jstr "ana")]) := by rfl

example : jsonStringify (.jarr [.jnum 1, .jstr "a"]) = "[1,\"a\"]" := by rfl

example : jsonStringify (.jobj [("a", .jnum (-2))]) = "\x7b\"a\":-2\x7d" := by rfl

/-! ## Lemmas about object property access -/

theorem jget_jset_self (o : JObj) (k : String) (v : JVal) :
    jget (jset o k v) k = v := by
  induction o with
  | nil => simp [jget, jset]
  | cons p rest ih =>
      obtain ⟨k2, v2⟩ := p
      by_cases h : k2 = k
      · simp [jget, jset, h]
      · simp [jget, jset, h, ih]

theorem jget_jset_ne (o : JObj) (k k2 : String) (v : JVal) (h : k ≠ k2) :
    jget (jset o k v) k2 = jget o k2 := by
  induction o with
  | nil => simp [jget, jset, h]
  | cons p rest ih =>
      obtain ⟨k3, v3⟩ := p
      by_cases h3 : k3 = k
      · subst h3
        simp [jget, jset, h]
      · simp [jget, jset, h3, ih]

theorem jhas_jset (o : JObj) (k k2 : String) (v : JVal) :
    jhas (jset o k v) k2 = ((k == k2) || jhas o k2) := by
  induction o with
  | nil => simp [jhas, jset]
  | cons p rest ih =>
      obtain ⟨k3, v3⟩ := p
      by_cases h3 : k3 = k
      · subst h3
        simp [jhas, jset]
      · simp only [jset, if_neg h3, jhas, ih]
        by_cases h2 : k3 = k2 <;> simp [h2, Bool.or_comm, Bool.or_assoc, Bool.or_left_comm]

theorem jset_jget_of_jhas (o : JObj) (k : String) (h : jhas o k = true) :
    jset o k (jget o k) = o := by
  induction o with
  | nil => simp [jhas] at h
  | cons p rest ih =>
      obtain ⟨k2, v2⟩ := p
      by_cases h2 : k2 = k
      · subst h2
        simp [jset, jget]
      · have h3 : jhas rest k = true := by simpa [jhas, h2] using h
        simp only [jset, jget, if_neg h2]
        rw [ih h3]

/-! ## Field access through the normalizer -/

theorem jget_normalizar_lista (o : JObj) (f : String) (hf : f ∈ camposLista) :
    jget (normalizarDadosDemanda o) f = normalizarCampoLista (jget o f) := by
  fin_cases hf <;>
    simp [normalizarDadosDemanda, jget_jset_self, jget_jset_ne]

theorem jget_normalizar_isRotina (o : JObj) :
    jget (normalizarDadosDemanda o) "isRotina" = .jbool (truthy (jget o "isRotina")) := by
  simp [normalizarDadosDemanda, jget_jset_self, jget_jset_ne]

/-! ## Idempotence infrastructure -/

/-- A stored field value on which one normalization pass reaches a fixed
point: anything except a string that successfully JSON-decodes to a
non-array value. -/
def campoEstavel : JVal → Bool
  | .jstr s =>
      (match jsonParse s with
       | some w => w.isArray
       | none => true)
  | _ => true

theorem normalizarCampoLista_idem (v : JVal) (h : campoEstavel v = true) :
    normalizarCampoLista (normalizarCampoLista v) = normalizarCampoLista v := by
  cases v with
  | jstr s =>
      simp only [campoEstavel] at h
      simp only [normalizarCampoLista, JVal.isString]
      cases hp : jsonParse s with
      | none => simp
      | some w =>
          rw [hp] at h
          cases w <;> simp_all [JVal.isArray, JVal.isString]
  | jarr xs => simp [normalizarCampoLista, JVal.isString, JVal.isArray]
  | jnull => simp [normalizarCampoLista, JVal.isString, JVal.isArray]
  | jundef => simp [normalizarCampoLista, JVal.isString, JVal.isArray]
  | jnan => simp [normalizarCampoLista, JVal.isString, JVal.isArray]
  | jbool b => simp [normalizarCampoLista, JVal.isString, JVal.isArray]
  | jnum n => simp [normalizarCampoLista, JVal.isString, JVal.isArray]
  | jobj fs => simp [normalizarCampoLista, JVal.isString, JVal.isArray]

theorem jhas_normalizar (o : JObj) (f : String)
    (hf : f ∈ camposLista ∨ f = "isRotina") :
    jhas (normalizarDadosDemanda o) f = true := by
  rcases hf with hf | hf
  · fin_cases hf <;> simp [normalizarDadosDemanda, jhas_jset]
  · subst hf
    simp [normalizarDadosDemanda, jhas_jset]

/-- A normalized demand is a fixed point of one more normalization pass. -/
theorem normalizar_fix (nrm : JObj)
    (h1 : ∀ f ∈ camposLista, normalizarCampoLista (jget nrm f) = jget nrm f)
    (h2 : JVal.jbool (truthy (jget nrm "isRotina")) = jget nrm "isRotina")
    (h3 : ∀ f, (f ∈ camposLista ∨ f = "isRotina") → jhas nrm f = true) :
    normalizarDadosDemanda nrm = nrm := by
  have e1 : jset nrm "diasSemana" (normalizarCampoLista (jget nrm "diasSemana")) = nrm := by
    rw [h1 _ (by simp [camposLista])]
    exact jset_jget_of_jhas _ _ (h3 _ (by simp [camposLista]))
  have e2 : jset nrm "atribuidos" (normalizarCampoLista (jget nrm "atribuidos")) = nrm := by
    rw [h1 _ (by simp [camposLista])]
    exact jset_jget_of_jhas _ _ (h3 _ (by simp [camposLista]))
  have e3 : jset nrm "isRotina" (JVal.jbool (truthy (jget nrm "isRotina"))) = nrm := by
    rw [h2]
    exact jset_jget_of_jhas _ _ (h3 _ (by simp))
  have e4 : jset nrm "anexosCriacao" (normalizarCampoLista (jget nrm "anexosCriacao")) = nrm := by
    rw [h1 _ (by simp [camposLista])]
    exact jset_jget_of_jhas _ _ (h3 _ (by simp [camposLista]))
  have e5 : jset nrm "anexosResolucao" (normalizarCampoLista (jget nrm "anexosResolucao")) = nrm := by
    rw [h1 _ (by simp [camposLista])]
    exact jset_jget_of_jhas _ _ (h3 _ (by simp [camposLista]))
  have e6 : jset nrm "comentariosUsuarios" (normalizarCampoLista (jget nrm "comentariosUsuarios")) = nrm := by
    rw [h1 _ (by simp [camposLista])]
    exact jset_jget_of_jhas _ _ (h3 _ (by simp [camposLista]))
  show normalizarDadosDemanda nrm = nrm
  simp only [normalizarDadosDemanda]
  rw [e1, e2, e3, e4, e5, e6]

/-! ## Claims C1, C2, C10 about the field normalizer -/

theorem normalizarCampoLista_shape (v : JVal) :
    (normalizarCampoLista v).isArray = true
      ∨ ∃ s w, v = JVal.jstr s ∧ jsonParse s = some w ∧ w.isArray = false
          ∧ normalizarCampoLista v = w := by
  cases v with
  | jstr s =>
      cases hp : jsonParse s with
      | none => left; simp [normalizarCampoLista, JVal.isString, hp, JVal.isArray]
      | some w =>
          by_cases hw : w.isArray = true
          · left; simpa [normalizarCampoLista, JVal.isString, hp] using hw
          · right
            exact ⟨s, w, rfl, hp, by simpa using hw,
              by simp [normalizarCampoLista, JVal.isString, hp]⟩
  | jarr xs => left; simp [normalizarCampoLista, JVal.isString, JVal.isArray]
  | jnull => left; simp [normalizarCampoLista, JVal.isString, JVal.isArray]
  | jundef => left; simp [normalizarCampoLista, JVal.isString, JVal.isArray]
  | jnan => left; simp [normalizarCampoLista, JVal.isString, JVal.isArray]
  | jbool b => left; simp [normalizarCampoLista, JVal.isString, JVal.isArray]
  | jnum n => left; simp [normalizarCampoLista, JVal.isString, JVal.isArray]
  | jobj fs => left; simp [normalizarCampoLista, JVal.isString, JVal.isArray]

theorem normalizarCampoLista_parse_fail (s : String) (hp : jsonParse s = none) :
    normalizarCampoLista (JVal.jstr s) = JVal.jarr [] := by
  simp [normalizarCampoLista, JVal.isString, hp]

theorem normalizarCampoLista_array (v : JVal) (hv : v.isArray = true) :
    normalizarCampoLista v = v := by
  cases v <;> simp_all [normalizarCampoLista, JVal.isString, JVal.isArray]

/-- Claim C1, amended.  As stated the claim is false (see
`C1_counterexample`): a stored string that successfully JSON-decodes to a
non-array value (for example the string `"5"`) is passed through as that
decoded non-array value.  Amended statement: after `normalizarDadosDemanda`,
each of the five list-valued fields is a list, except when the stored value
was a string that successfully decodes to a non-array JSON value, in which
case the field holds that decoded value; a stored string that fails to
decode becomes the empty list, a stored array passes through unchanged, and
normalization is a total function (it never raises). -/
theorem C1_campos_lista_normalizados (o : JObj) (f : String) (hf : f ∈ camposLista) :
    ((jget (normalizarDadosDemanda o) f).isArray = true
      ∨ ∃ s w, jget o f = JVal.jstr s ∧ jsonParse s = some w ∧ w.isArray = false
          ∧ jget (normalizarDadosDemanda o) f = w)
    ∧ (∀ s, jget o f = JVal.jstr s → jsonParse s = none →
        jget (normalizarDadosDemanda o) f = JVal.jarr [])
    ∧ ((jget o f).isArray = true → jget (normalizarDadosDemanda o) f = jget o f) := by
  have hm := jget_normalizar_lista o f hf
  refine ⟨?_, ?_, ?_⟩
  · rw [hm]
    exact normalizarCampoLista_shape (jget o f)
  · intro s hs hp
    rw [hm, hs]
    exact normalizarCampoLista_parse_fail s hp
  · intro hv
    rw [hm]
    exact normalizarCampoLista_array _ hv

/-- Witness for `C1_campos_lista_normalizados` at the concrete demand
object with `atribuidos` stored as the undecodable string `"oops"`. -/
theorem C1_campos_lista_normalizados_witness :
    ((jget (normalizarDadosDemanda [("atribuidos", JVal.jstr "oops")]) "atribuidos").isArray = true
      ∨ ∃ s w, jget [("atribuidos", JVal.jstr "oops")] "atribuidos" = JVal.jstr s
          ∧ jsonParse s = some w ∧ w.isArray = false
          ∧ jget (normalizarDadosDemanda [("atribuidos", JVal.jstr "oops")]) "atribuidos" = w)
    ∧ (∀ s, jget [("atribuidos", JVal.jstr "oops")] "atribuidos" = JVal.jstr s →
        jsonParse s = none →
        jget (normalizarDadosDemanda [("atribuidos", JVal.jstr "oops")]) "atribuidos" = JVal.jarr [])
    ∧ ((jget [("atribuidos", JVal.jstr "oops")] "atribuidos").isArray = true →
        jget (normalizarDadosDemanda [("atribuidos", JVal.jstr "oops")]) "atribuidos"
          = jget [("atribuidos", JVal.jstr "oops")] "atribuidos") :=
  C1_campos_lista_normalizados [("atribuidos", JVal.jstr "oops")] "atribuidos"
    (by simp [camposLista])

/-- Counterexample to claim C1 as stated: a demand whose `diasSemana` is
stored as the string `"5"` is returned with `diasSemana` equal to the
number `5`, which is not a list (`JSON.parse('5')` succeeds, so the
non-array guard is never reached). -/
theorem C1_counterexample :
    jget (normalizarDadosDemanda [("diasSemana", JVal.jstr "5")]) "diasSemana" = JVal.jnum 5
    ∧ (JVal.jnum 5).isArray = false :=
  ⟨rfl, rfl⟩

/-- Counterexample to claim C2 as stated: for the demand with `diasSemana`
stored as the string `"5"`, the first pass decodes it to the number `5` and
the second pass replaces that non-array number with `[]`, so
`normalize(normalize(d))` differs from `normalize(d)`. -/
theorem C2_counterexample :
    normalizarDadosDemanda (normalizarDadosDemanda [("diasSemana", JVal.jstr "5")])
      ≠ normalizarDadosDemanda [("diasSemana", JVal.jstr "5")] :=
  fun h =>
    JVal.noConfusion
      (show JVal.jarr [] = JVal.jnum 5 from congrArg (fun o => jget o "diasSemana") h)

/-- Claim C2, amended.  As stated the claim is false (see
`C2_counterexample`).  Amended statement: `normalizarDadosDemanda` is
idempotent on every demand object none of whose five list-valued fields is
stored as a string that successfully JSON-decodes to a non-array value
(the exact class of inputs the counterexample excludes). -/
theorem C2_normalizar_idempotente (o : JObj)
    (h : ∀ f ∈ camposLista, campoEstavel (jget o f) = true) :
    normalizarDadosDemanda (normalizarDadosDemanda o) = normalizarDadosDemanda o := by
  apply normalizar_fix
  · intro f hf
    rw [jget_normalizar_lista o f hf]
    exact normalizarCampoLista_idem _ (h f hf)
  · rw [jget_normalizar_isRotina o]
    rfl
  · intro f hf
    exact jhas_normalizar o f hf

/-- Witness for `C2_normalizar_idempotente` at a concrete demand object
with one well-formed encoded field, one malformed encoded field and one
non-list field. -/
theorem C2_normalizar_idempotente_witness :
    normalizarDadosDemanda (normalizarDadosDemanda
        [("diasSemana", JVal.jstr "[1,2]"), ("atribuidos", JVal.jstr "oops"),
         ("anexosCriacao", JVal.jnull)])
      = normalizarDadosDemanda
        [("diasSemana", JVal.jstr "[1,2]"), ("atribuidos", JVal.jstr "oops"),
         ("anexosCriacao", JVal.jnull)] :=
  C2_normalizar_idempotente _ (by decide)

/-- Claim C10: `isRotina` is coerced with JavaScript truthiness
(`demanda.isRotina = Boolean(demanda.isRotina)`): any non-empty stored
string, including `"0"`, becomes `true`, and the result is `false` exactly
when the stored value is the number `0`, the empty string, `false`, `null`,
`undefined` or `NaN`. -/
theorem C10_isRotina_truthiness (o : JObj) :
    (∀ s : String, jget o "isRotina" = JVal.jstr s → s ≠ "" →
        jget (normalizarDadosDemanda o) "isRotina" = JVal.jbool true)
    ∧ (jget (normalizarDadosDemanda o) "isRotina" = JVal.jbool false ↔
        (jget o "isRotina" = JVal.jnum 0 ∨ jget o "isRotina" = JVal.jstr ""
         ∨ jget o "isRotina" = JVal.jbool false ∨ jget o "isRotina" = JVal.jnull
         ∨ jget o "isRotina" = JVal.jundef ∨ jget o "isRotina" = JVal.jnan)) := by
  have hm := jget_normalizar_isRotina o
  constructor
  · intro s hs hne
    rw [hm, hs]
    simp [truthy, hne]
  · rw [hm]
    cases hv : jget o "isRotina" with
    | jnull => simp [truthy]
    | jundef => simp [truthy]
    | jnan => simp [truthy]
    | jbool b => cases b <;> simp [truthy]
    | jnum n => by_cases hn : n = 0 <;> simp [truthy, hn]
    | jstr s => by_cases hs : s = "" <;> simp [truthy, hs]
    | jarr xs => simp [truthy]
    | jobj fs => simp [truthy]

/-- Witness for `C10_isRotina_truthiness`: a demand storing `isRotina` as
the string `"0"` is normalized to `isRotina = true`. -/
theorem C10_isRotina_truthiness_witness :
    jget (normalizarDadosDemanda [("isRotina", JVal.jstr "0")]) "isRotina" = JVal.jbool true :=
  (C10_isRotina_truthiness [("isRotina", JVal.jstr "0")]).1 "0" rfl (by decide)

/-! ## Further JavaScript primitives used by the handlers -/

/-- JavaScript string conversion (template literals, `String(v)`).
Arrays join their elements with `,` (with `null`/`undefined` elements
rendered empty) and plain objects render as `[object Object]`. -/
def jsToString : JVal → String
  | .jnull => "null"
  | .jundef => "undefined"
  | .jnan => "NaN"
  | .jbool b => if b then "true" else "false"
  | .jnum n => intRepr n
  | .jstr s => s
  | .jarr xs => String.intercalate "," (elemsToString xs)
  | .jobj _ => "[object Object]"
where
  elemsToString : List JVal → List String
    | [] => []
    | .jnull :: xs => "" :: elemsToString xs
    | .jundef :: xs => "" :: elemsToString xs
    | x :: xs => jsToString x :: elemsToString xs

/-- JavaScript strict equality (`===`).  Two arrays or objects occurring
here always come from different allocations (a freshly parsed value versus
a request value), so they compare unequal, as reference equality does. -/
def jsStrictEq : JVal → JVal → Bool
  | .jnan, _ => false
  | _, .jnan => false
  | .jnull, .jnull => true
  | .jundef, .jundef => true
  | .jbool a, .jbool b => a == b
  | .jnum a, .jnum b => a == b
  | .jstr a, .jstr b => a == b
  | _, _ => false

/-- JavaScript whitespace for `String.prototype.trim` (the ASCII cases
that occur in the modelled data). -/
def jsWs (c : Char) : Bool :=
  c = ' ' ∨ c = '\t' ∨ c = '\n' ∨ c = '\r' ∨ c.toNat = 11 ∨ c.toNat = 12

/-- JavaScript `s.trim()`. -/
def jsTrim (s : String) : String :=
  ⟨((s.data.dropWhile jsWs).reverse.dropWhile jsWs).reverse⟩

/-- JavaScript `ToNumber` on a trimmed string, for loose equality:
the empty string converts to `0`, a decimal integer literal to its value,
anything else (in the integer model) to `NaN`, rendered as `none`. -/
def strToNumber (s : String) : Option Int :=
  let t := jsTrim s
  if t = "" then some 0
  else
    let (neg, ds) := match t.data with
      | '-' :: rest => (true, rest)
      | '+' :: rest => (false, rest)
      | rest => (false, rest)
    if ds ≠ [] ∧ ds.all Char.isDigit then
      some (if neg then -(natOfDigits ds : Int) else (natOfDigits ds : Int))
    else none

/-- Loose equality (`==`) on primitive values. -/
def jsLooseEqPrim : JVal → JVal → Bool
  | .jnull, .jnull => true
  | .jnull, .jundef => true
  | .jundef, .jnull => true
  | .jundef, .jundef => true
  | .jnull, _ => false
  | _, .jnull => false
  | .jundef, _ => false
  | _, .jundef => false
  | .jnan, _ => false
  | _, .jnan => false
  | .jnum a, .jnum b => a == b
  | .jstr a, .jstr b => a == b
  | .jbool a, .jbool b => a == b
  | .jnum a, .jstr s => (strToNumber s).elim false (fun b => a == b)
  | .jstr s, .jnum a => (strToNumber s).elim false (fun b => a == b)
  | .jbool a, .jnum b => (if a then (1 : Int) else 0) == b
  | .jnum a, .jbool b => a == (if b then (1 : Int) else 0)
  | .jbool a, .jstr s => (strToNumber s).elim false (fun b => (if a then (1 : Int) else 0) == b)
  | .jstr s, .jbool a => (strToNumber s).elim false (fun b => (if a then (1 : Int) else 0) == b)
  | _, _ => false

/-- JavaScript loose equality (`==`).  Two composite values compare by
reference and are distinct allocations here; a composite against a
primitive converts through its string rendering (`ToPrimitive`). -/
def jsLooseEq (a b : JVal) : Bool :=
  match a, b with
  | .jarr _, .jarr _ => false
  | .jarr _, .jobj _ => false
  | .jobj _, .jarr _ => false
  | .jobj _, .jobj _ => false
  | .jarr xs, v => jsLooseEqPrim (.jstr (jsToString (.jarr xs))) v
  | v, .jarr xs => jsLooseEqPrim v (.jstr (jsToString (.jarr xs)))
  | .jobj fs, v => jsLooseEqPrim (.jstr (jsToString (.jobj fs))) v
  | v, .jobj fs => jsLooseEqPrim v (.jstr (jsToString (.jobj fs)))
  | a, b => jsLooseEqPrim a b

/-- Property access `v.k` on an arbitrary value: `none` models the
`TypeError` thrown on a `null`/`undefined` base; on a non-object base the
(absent) property reads as `undefined`. -/
def propGet : JVal → String → Option JVal
  | .jnull, _ => none
  | .jundef, _ => none
  | .jobj o, k => some (jget o k)
  | _, _ => some .jundef

example : jsLooseEq (.jstr "5") (.jnum 5) = true := by rfl

example : jsLooseEq (.jnum 5) (.jnum 4) = false := by rfl

/-! ## SQLite binding and constraints (table `demandas`)

`node-sqlite3` binds `null`/`undefined` as SQL `NULL`, booleans as
integers and `NaN` as `NULL`, and rejects arrays and objects; the
`demandas` table declares the NOT NULL columns below
(src/server.js lines 171-203). -/

/-- Whether a value has a type `node-sqlite3` can bind. -/
def bindavel : JVal → Bool
  | .jarr _ => false
  | .jobj _ => false
  | _ => true

/-- The SQL value stored for a bound parameter. -/
def sqlBindVal : JVal → JVal
  | .jundef => .jnull
  | .jnan => .jnull
  | .jbool b => .jnum (if b then 1 else 0)
  | v => v

/-- The NOT NULL columns of the `demandas` table. -/
def colunasNotNull : List String :=
  ["funcionarioId", "nomeFuncionario", "emailFuncionario", "categoria", "prioridade",
   "complexidade", "descricao", "local", "dataCriacao", "dataLimite", "status"]

/-- Bind a parameter list to its stored column values. -/
def ligarColunas (cols : List (String × JVal)) : JObj :=
  cols.map (fun p => (p.1, sqlBindVal p.2))

/-- Whether every parameter in the list has a bindable type. -/
def colunasBindaveis (cols : List (String × JVal)) : Bool :=
  cols.all (fun p => bindavel p.2)

/-- The NOT NULL constraint check on a bound row. -/
def notNullOk (row : JObj) : Bool :=
  colunasNotNull.all (fun c => !(jget row c matches JVal.jnull))

/-- The UNIQUE constraint on `tag`: a conflict with some existing row
holding the same non-NULL tag. -/
def tagConflict (demandas : List JObj) (row : JObj) : Bool :=
  match jget row "tag" with
  | JVal.jnull => false
  | t => demandas.any (fun r => jsStrictEq (jget r "tag") t)

/-! ## Server state -/

/-- A row of the append-only `auditoria` table, as `registrarAuditoria`
(src/server.js lines 461-478) inserts it: the before/after snapshots are
stored serialized, with a falsy snapshot defaulted to the empty object. -/
structure AuditEntry where
  acao : String
  tabela : String
  registroId : JVal
  dadosAntigos : String
  dadosNovos : String
  usuarioId : JVal
  ip : String
deriving Repr

/-- A row of the `notificacoes` table, as `criarNotificacao`
(src/server.js lines 1491-1514) inserts it. -/
structure Notificacao where
  usuarioId : JVal
  tipo : String
  titulo : String
  mensagem : String
  tag : JVal
  prioridade : JVal
  dataCriacao : String
deriving Repr

/-- The persistent state the modelled handlers touch: the `demandas` and
`usuarios` tables, the notification and audit tables, the sequence of
triggered backup snapshots (by trigger kind, in order) and the
AUTOINCREMENT counter for demand ids. -/
structure ServerState where
  demandas : List JObj
  usuarios : List JObj
  notificacoes : List Notificacao
  auditoria : List AuditEntry
  backups : List String
  proximoId : Int
deriving Repr

/-- `registrarAuditoria` (effective copy, identical in both halves):
append an audit row, serializing the snapshots and defaulting a falsy
snapshot to `\x7b\x7d`. -/
def registrarAuditoria (st : ServerState) (acao tabela : String)
    (registroId dadosAntigos dadosNovos usuarioId : JVal) (ip : String) : ServerState :=
  { st with auditoria := st.auditoria ++
      [{ acao := acao, tabela := tabela, registroId := registroId,
         dadosAntigos := jsonStringify (jor dadosAntigos (.jobj [])),
         dadosNovos := jsonStringify (jor dadosNovos (.jobj [])),
         usuarioId := usuarioId, ip := ip }] }

/-- `criarNotificacao` (src/server.js lines 1491-1514): persist one
notification row (the live socket push that follows is a non-persistent
side channel outside the model). -/
def criarNotificacao (st : ServerState) (usuarioId : JVal) (tipo titulo mensagem : String)
    (tag prioridade : JVal) (nowIso : String) : ServerState :=
  { st with notificacoes := st.notificacoes ++
      [{ usuarioId := usuarioId, tipo := tipo, titulo := titulo, mensagem := mensagem,
         tag := tag, prioridade := prioridade, dataCriacao := nowIso }] }

/-- `criarBackup` (src/server.js lines 1517-1549): the claims count the
snapshots triggered with each kind, so the model records the trigger kind
of each snapshot in order (the snapshot content is a normalized export of
the whole `demandas` table). -/
def criarBackup (st : ServerState) (tipo : String) : ServerState :=
  { st with backups := st.backups ++ [tipo] }

/-- Find a demand row by integer id (`SELECT * FROM demandas WHERE id = ?`;
the route parameter is coerced by SQLite numeric affinity). -/
def encontrarDemanda (st : ServerState) (id : Int) : Option JObj :=
  st.demandas.find? (fun r => jsStrictEq (jget r "id") (.jnum id))

/-- Replace the row with the given id (`UPDATE ... WHERE id = ?`). -/
def substituirDemanda (st : ServerState) (id : Int) (novo : JObj) : ServerState :=
  { st with demandas :=
      st.demandas.map (fun r => if jsStrictEq (jget r "id") (.jnum id) then novo else r) }

/-! ## Validation middleware (`validarDemanda`, src/server.js lines 481-497) -/

/-- Outcome of the validation middleware: a 400 response with a message,
a thrown `TypeError` (`.trim()` on a truthy non-string, surfacing as 500),
or fall-through to the handler. -/
inductive ValidacaoDemanda where
  | erro (msg : String)
  | lanca
  | passa
deriving Repr

/-- The `validarDemanda` middleware: rejects a falsy demand name or a
trimmed name shorter than 3, then a falsy category, then a falsy
deadline. -/
def validarDemanda (body : JObj) : ValidacaoDemanda :=
  if truthy (jget body "nomeDemanda") = false then .erro "Nome da demanda é obrigatório"
  else
    match jget body "nomeDemanda" with
    | .jstr s =>
        if (jsTrim s).length < 3 then .erro "Nome da demanda é obrigatório"
        else if truthy (jget body "categoria") = false then .erro "Categoria é obrigatória"
        else if truthy (jget body "dataLimite") = false then .erro "Data limite é obrigatória"
        else .passa
    | _ => .lanca

/-! ## Demand creation (POST /api/demandas, src/server.js lines 750-828) -/

/-- The normalized request body with the generated tag
(`DEM-` followed by `Date.now()`) when no truthy tag was supplied. -/
def demandaComTag (body : JObj) (nowMs : Nat) : JObj :=
  let dn := normalizarDadosDemanda body
  if truthy (jget dn "tag") = false then jset dn "tag" (.jstr ("DEM-" ++ natRepr nowMs)) else dn

/-- The INSERT parameter list of the create handler, in source order. -/
def colunasCriacao (dn : JObj) (usuarioId : JVal) (nowIso : String) : List (String × JVal) :=
  [("funcionarioId", jget dn "funcionarioId"),
   ("nomeFuncionario", jget dn "nomeFuncionario"),
   ("emailFuncionario", jget dn "emailFuncionario"),
   ("categoria", jget dn "categoria"),
   ("prioridade", jget dn "prioridade"),
   ("complexidade", jget dn "complexidade"),
   ("descricao", jget dn "descricao"),
   ("local", jget dn "local"),
   ("dataCriacao", jor (jget dn "dataCriacao") (.jstr nowIso)),
   ("dataLimite", jget dn "dataLimite"),
   ("status", jor (jget dn "status") (.jstr "pendente")),
   ("isRotina", .jnum (if truthy (jget dn "isRotina") then 1 else 0)),
   ("diasSemana", .jstr (jsonStringify (jget dn "diasSemana"))),
   ("tag", jget dn "tag"),
   ("comentarios", jor (jget dn "comentarios") (.jstr "")),
   ("comentarioGestor", jor (jget dn "comentarioGestor") (.jstr "")),
   ("atribuidos", .jstr (jsonStringify (jget dn "atribuidos"))),
   ("anexosCriacao", .jstr (jsonStringify (jget dn "anexosCriacao"))),
   ("nomeDemanda", jget dn "nomeDemanda"),
   ("criadoPor", usuarioId)]

/-- The stored row of a created demand: the AUTOINCREMENT id, the bound
parameters and the SQL defaults of the unmentioned columns. -/
def linhaCriacao (id : Int) (bound : JObj) (sqlNow : String) : JObj :=
  ("id", JVal.jnum id) :: bound ++
  [("dataConclusao", .jnull), ("anexosResolucao", .jstr "[]"),
   ("comentarioReprovacaoAtribuicao", .jstr ""), ("dataAtualizacao", .jstr sqlNow),
   ("comentariosUsuarios", .jstr "[]")]

/-- The per-assignee notification loop of the create handler
(`atribuido.id !== funcionarioId` guards self-notification); the `Bool`
reports a thrown `TypeError` on a `null`/`undefined` element. -/
def notificarCriacaoLista : ServerState → List JVal → JObj → String → ServerState × Bool
  | st, [], _, _ => (st, false)
  | st, a :: rest, dn, nowIso =>
      match propGet a "id" with
      | none => (st, true)
      | some aid =>
          let st2 :=
            if jsStrictEq aid (jget dn "funcionarioId") = false then
              criarNotificacao st aid "nova_demanda" "Nova Tarefa Atribuída"
                (jsToString (jget dn "nomeFuncionario") ++ " atribuiu uma tarefa a você: "
                  ++ jsToString (jget dn "nomeDemanda"))
                (jget dn "tag") (.jbool false) nowIso
            else st
          notificarCriacaoLista st2 rest dn nowIso

/-- `if (atribuidos && atribuidos.length > 0) atribuidos.forEach(...)`:
only arrays iterate; a non-empty string has a `length` but no `forEach`,
which throws. -/
def notificarCriacao (st : ServerState) (dn : JObj) (nowIso : String) : ServerState × Bool :=
  match jget dn "atribuidos" with
  | .jarr xs => if 0 < xs.length then notificarCriacaoLista st xs dn nowIso else (st, false)
  | .jstr s => if 0 < s.length then (st, true) else (st, false)
  | _ => (st, false)

/-- Outcome of the create handler. -/
inductive RespostaCriacao where
  | invalida (msg : String)
  | lancada
  | falha
  | criada (demanda : JObj)
deriving Repr

/-- The POST /api/demandas handler (effective first copy, lines 750-828):
validate, normalize, generate a tag when absent, INSERT (NOT NULL and
UNIQUE-tag constraints enforced by SQLite; `node-sqlite3` rejects
non-bindable parameter types), audit a CREATE with null before-state, then
notify assignees other than the owner. -/
def postDemandas (st : ServerState) (body : JObj) (usuarioId : JVal) (nowMs : Nat)
    (nowIso sqlNow ip : String) : RespostaCriacao × ServerState :=
  match validarDemanda body with
  | .erro msg => (.invalida msg, st)
  | .lanca => (.lancada, st)
  | .passa =>
    let dn := demandaComTag body nowMs
    let cols := colunasCriacao dn usuarioId nowIso
    let bound := ligarColunas cols
    let row := linhaCriacao st.proximoId bound sqlNow
    if colunasBindaveis cols && notNullOk bound && !tagConflict st.demandas row then
      let id := st.proximoId
      let st1 := { st with demandas := st.demandas ++ [row], proximoId := id + 1 }
      let st2 := registrarAuditoria st1 "CREATE" "demandas" (.jnum id) .jnull (.jobj dn) usuarioId ip
      let nt := notificarCriacao st2 dn nowIso
      if nt.2 then (.lancada, nt.1)
      else (.criada (jset (jspread [("id", .jnum id)] dn) "dataCriacao"
              (jor (jget dn "dataCriacao") (.jstr nowIso))), nt.1)
    else (.falha, st)

/-! ## Claim C5: create contract -/

theorem digitChar_isDigit (n : Nat) (h : n < 10) : (digitChar n).isDigit = true := by
  interval_cases n <;> decide

theorem natDigits_all_digits (fuel n : Nat) : ∀ c ∈ natDigits fuel n, c.isDigit = true := by
  induction fuel generalizing n with
  | zero => intro c hc; simp [natDigits] at hc
  | succ fuel ih =>
      intro c hc
      simp only [natDigits] at hc
      by_cases h : n < 10
      · rw [if_pos h] at hc
        simp only [List.mem_singleton] at hc
        subst hc
        exact digitChar_isDigit n h
      · rw [if_neg h] at hc
        rcases List.mem_append.mp hc with h1 | h1
        · exact ih _ _ h1
        · simp only [List.mem_singleton] at h1
          subst h1
          exact digitChar_isDigit _ (Nat.mod_lt _ (by omega))

theorem natDigits_ne_nil (fuel n : Nat) : natDigits (fuel + 1) n ≠ [] := by
  simp only [natDigits]
  by_cases h : n < 10 <;> simp [h]

/-- The response pattern `DEM-<digits>` of the claim. -/
def tagPadraoDEM (s : String) : Bool :=
  decide (s.data.take 4 = ['D', 'E', 'M', '-'])
    && !(s.data.drop 4).isEmpty && (s.data.drop 4).all Char.isDigit

theorem tagPadraoDEM_natRepr (n : Nat) : tagPadraoDEM ("DEM-" ++ natRepr n) = true := by
  have hdata : ("DEM-" ++ natRepr n).data = ['D', 'E', 'M', '-'] ++ natDigits (n + 1) n := rfl
  have hlen : (['D', 'E', 'M', '-'] : List Char).length = 4 := rfl
  simp only [tagPadraoDEM, hdata]
  rw [show (4 : Nat) = (['D', 'E', 'M', '-'] : List Char).length from rfl,
    List.take_left, List.drop_left]
  have h1 := natDigits_ne_nil n n
  have h2 := natDigits_all_digits (n + 1) n
  have h3 : (natDigits (n + 1) n).isEmpty = false := by simp [List.isEmpty_iff, h1]
  have h4 : (natDigits (n + 1) n).all Char.isDigit = true := by
    simpa [List.all_eq_true] using h2
  simp [h3, h4]

/-- Fields other than the six the normalizer touches read through it. -/
theorem jget_normalizar_outro (o : JObj) (f : String)
    (h1 : f ≠ "diasSemana") (h2 : f ≠ "atribuidos") (h3 : f ≠ "isRotina")
    (h4 : f ≠ "anexosCriacao") (h5 : f ≠ "anexosResolucao")
    (h6 : f ≠ "comentariosUsuarios") :
    jget (normalizarDadosDemanda o) f = jget o f := by
  simp only [normalizarDadosDemanda]
  rw [jget_jset_ne _ _ _ _ (Ne.symm h6), jget_jset_ne _ _ _ _ (Ne.symm h5),
      jget_jset_ne _ _ _ _ (Ne.symm h4), jget_jset_ne _ _ _ _ (Ne.symm h3),
      jget_jset_ne _ _ _ _ (Ne.symm h2), jget_jset_ne _ _ _ _ (Ne.symm h1)]

/-- The create-contract precondition of the claim: a demand name present
with at least 3 characters after trimming, a category and a deadline. -/
def criacaoValida (body : JObj) : Prop :=
  (∃ s, jget body "nomeDemanda" = JVal.jstr s ∧ 3 ≤ (jsTrim s).length)
  ∧ truthy (jget body "categoria") = true
  ∧ truthy (jget body "dataLimite") = true

theorem validarDemanda_passa (body : JObj) (h : criacaoValida body) :
    validarDemanda body = .passa := by
  obtain ⟨⟨s, hs, h3⟩, hcat, hdl⟩ := h
  have hsne : s ≠ "" := by
    intro he
    subst he
    simp [jsTrim] at h3
  have hts : truthy (JVal.jstr s) = true := by simp [truthy, hsne]
  simp [validarDemanda, hs, hts, hcat, hdl, Nat.not_lt.mpr h3]

theorem validarDemanda_erro (body : JObj)
    (hty : (jget body "nomeDemanda").isString = true ∨ truthy (jget body "nomeDemanda") = false)
    (h : ¬ criacaoValida body) :
    ∃ msg, validarDemanda body = .erro msg := by
  by_cases htr : truthy (jget body "nomeDemanda") = false
  · refine ⟨"Nome da demanda é obrigatório", ?_⟩
    simp [validarDemanda, htr]
  · rcases hty with hty | hty
    · cases hv : jget body "nomeDemanda" with
      | jstr s =>
          by_cases h3 : (jsTrim s).length < 3
          · refine ⟨"Nome da demanda é obrigatório", ?_⟩
            rw [hv] at htr
            simp [validarDemanda, hv, htr, h3]
          · by_cases hcat : truthy (jget body "categoria") = false
            · refine ⟨"Categoria é obrigatória", ?_⟩
              rw [hv] at htr
              simp [validarDemanda, hv, htr, h3, hcat]
            · by_cases hdl : truthy (jget body "dataLimite") = false
              · refine ⟨"Data limite é obrigatória", ?_⟩
                rw [hv] at htr
                simp [validarDemanda, hv, htr, h3, hcat, hdl]
              · exact absurd ⟨⟨s, hv, Nat.not_lt.mp h3⟩,
                  eq_true_of_ne_false hcat, eq_true_of_ne_false hdl⟩ h
      | jnull => rw [hv] at hty; cases hty
      | jundef => rw [hv] at hty; cases hty
      | jnan => rw [hv] at hty; cases hty
      | jbool b => rw [hv] at hty; cases hty
      | jnum m => rw [hv] at hty; cases hty
      | jarr xs => rw [hv] at hty; cases hty
      | jobj fs => rw [hv] at hty; cases hty
    · exact absurd hty htr

theorem notificarCriacaoLista_demandas (xs : List JVal) (st : ServerState) (dn : JObj)
    (nowIso : String) : (notificarCriacaoLista st xs dn nowIso).1.demandas = st.demandas := by
  induction xs generalizing st with
  | nil => rfl
  | cons a rest ih =>
      simp only [notificarCriacaoLista]
      cases propGet a "id" with
      | none => rfl
      | some aid =>
          by_cases h : jsStrictEq aid (jget dn "funcionarioId") = false <;>
            simp [h, ih, criarNotificacao]

theorem notificarCriacao_demandas (st : ServerState) (dn : JObj) (nowIso : String) :
    (notificarCriacao st dn nowIso).1.demandas = st.demandas := by
  simp only [notificarCriacao]
  cases jget dn "atribuidos" with
  | jarr xs =>
      by_cases h : 0 < xs.length
      · simp [h, notificarCriacaoLista_demandas]
      · simp [h]
  | jstr s => by_cases h : 0 < s.length <;> simp [h]
  | jnull => rfl
  | jundef => rfl
  | jnan => rfl
  | jbool b => rfl
  | jnum n => rfl
  | jobj fs => rfl

/-- Claim C5, amended.  As stated the claim is false (see
`C5_counterexample`): validation checks only name, category and deadline,
but the INSERT also requires the remaining NOT NULL columns
(`funcionarioId`, `nomeFuncionario`, `emailFuncionario`, `prioridade`,
`complexidade`, `descricao`, `local`), so a validation-passing request can
still fail with a database error and persist nothing.  Amended statement:
requests whose name is a string or falsy are rejected with a 400
validation error unless name (≥ 3 characters after trimming), category and
deadline are present; when these hold, no tag and no status are supplied,
and the insert is accepted by the database (bindable parameters, NOT NULL
columns present, no tag collision), the demand is persisted with the
generated tag `DEM-<digits>` and status `pendente`. -/
theorem C5_contrato_criacao (st : ServerState) (body : JObj) (usuarioId : JVal)
    (nowMs : Nat) (nowIso sqlNow ip : String) :
    (((jget body "nomeDemanda").isString = true ∨ truthy (jget body "nomeDemanda") = false) →
      ¬ criacaoValida body →
      ∃ msg, postDemandas st body usuarioId nowMs nowIso sqlNow ip = (.invalida msg, st))
    ∧ (criacaoValida body →
        truthy (jget body "tag") = false →
        truthy (jget body "status") = false →
        colunasBindaveis (colunasCriacao (demandaComTag body nowMs) usuarioId nowIso) = true →
        notNullOk (ligarColunas (colunasCriacao (demandaComTag body nowMs) usuarioId nowIso)) = true →
        tagConflict st.demandas (linhaCriacao st.proximoId
          (ligarColunas (colunasCriacao (demandaComTag body nowMs) usuarioId nowIso)) sqlNow) = false →
        ∃ r st2, postDemandas st body usuarioId nowMs nowIso sqlNow ip = (r, st2)
          ∧ st2.demandas = st.demandas ++ [linhaCriacao st.proximoId
              (ligarColunas (colunasCriacao (demandaComTag body nowMs) usuarioId nowIso)) sqlNow]
          ∧ jget (linhaCriacao st.proximoId
              (ligarColunas (colunasCriacao (demandaComTag body nowMs) usuarioId nowIso)) sqlNow) "tag"
              = JVal.jstr ("DEM-" ++ natRepr nowMs)
          ∧ tagPadraoDEM ("DEM-" ++ natRepr nowMs) = true
          ∧ jget (linhaCriacao st.proximoId
              (ligarColunas (colunasCriacao (demandaComTag body nowMs) usuarioId nowIso)) sqlNow) "status"
              = JVal.jstr "pendente") := by
  constructor
  · intro hty hnv
    obtain ⟨msg, hmsg⟩ := validarDemanda_erro body hty hnv
    refine ⟨msg, ?_⟩
    simp only [postDemandas, hmsg]
  · intro hval htag hstatus hbind hnn hconf
    have hpassa := validarDemanda_passa body hval
    have htagn : truthy (jget (normalizarDadosDemanda body) "tag") = false := by
      rw [jget_normalizar_outro body "tag" (by decide) (by decide) (by decide)
        (by decide) (by decide) (by decide)]
      exact htag
    have hdn : demandaComTag body nowMs
        = jset (normalizarDadosDemanda body) "tag" (.jstr ("DEM-" ++ natRepr nowMs)) := by
      simp [demandaComTag, htagn]
    have hdntag : jget (demandaComTag body nowMs) "tag"
        = JVal.jstr ("DEM-" ++ natRepr nowMs) := by
      rw [hdn, jget_jset_self]
    have hdnstatus : jget (demandaComTag body nowMs) "status" = jget body "status" := by
      rw [hdn, jget_jset_ne _ _ _ _ (by decide),
        jget_normalizar_outro body "status" (by decide) (by decide) (by decide)
          (by decide) (by decide) (by decide)]
    have hrowtag : jget (linhaCriacao st.proximoId
        (ligarColunas (colunasCriacao (demandaComTag body nowMs) usuarioId nowIso)) sqlNow) "tag"
        = JVal.jstr ("DEM-" ++ natRepr nowMs) := by
      simp [linhaCriacao, ligarColunas, colunasCriacao, jget, hdntag, sqlBindVal]
    have hrowstatus : jget (linhaCriacao st.proximoId
        (ligarColunas (colunasCriacao (demandaComTag body nowMs) usuarioId nowIso)) sqlNow) "status"
        = JVal.jstr "pendente" := by
      simp [linhaCriacao, ligarColunas, colunasCriacao, jget, hdnstatus, jor, hstatus, sqlBindVal]
    simp only [postDemandas, hpassa]
    rw [hbind, hnn, hconf]
    simp only [Bool.and_true, Bool.true_and, Bool.not_false, if_true]
    set dn := demandaComTag body nowMs with hdneq
    set row := linhaCriacao st.proximoId
      (ligarColunas (colunasCriacao dn usuarioId nowIso)) sqlNow with hroweq
    set st1 : ServerState :=
      { st with demandas := st.demandas ++ [row], proximoId := st.proximoId + 1 } with hst1
    set st2 := registrarAuditoria st1 "CREATE" "demandas" (.jnum st.proximoId)
      .jnull (.jobj dn) usuarioId ip with hst2
    have hd2 : st2.demandas = st.demandas ++ [row] := by
      simp [hst2, registrarAuditoria, hst1]
    by_cases hb : (notificarCriacao st2 dn nowIso).2 = true
    · refine ⟨.lancada, (notificarCriacao st2 dn nowIso).1, by simp [hb], ?_, hrowtag,
        tagPadraoDEM_natRepr nowMs, hrowstatus⟩
      rw [notificarCriacao_demandas, hd2]
    · refine ⟨.criada (jset (jspread [("id", .jnum st.proximoId)] dn) "dataCriacao"
          (jor (jget dn "dataCriacao") (.jstr nowIso))),
        (notificarCriacao st2 dn nowIso).1, by simp [hb], ?_, hrowtag,
        tagPadraoDEM_natRepr nowMs, hrowstatus⟩
      rw [notificarCriacao_demandas, hd2]

/-- Counterexample to claim C5 as stated, using the request body of the
spec example: name, category and deadline are all valid and no tag is
supplied, yet the INSERT binds `funcionarioId` (and the other required
columns) as NULL, SQLite rejects it with a NOT NULL violation, the
response is a 500 database error and nothing is persisted. -/
theorem C5_counterexample :
    criacaoValida [("nomeDemanda", JVal.jstr "Fix pump"),
      ("categoria", JVal.jstr "manutencao"), ("dataLimite", JVal.jstr "2025-01-01")]
    ∧ postDemandas ⟨[], [], [], [], [], 1⟩
        [("nomeDemanda", JVal.jstr "Fix pump"),
         ("categoria", JVal.jstr "manutencao"), ("dataLimite", JVal.jstr "2025-01-01")]
        (JVal.jnum 99) 1700000000000 "2025-01-01T00:00:00.000Z" "2025-01-01 00:00:00" "10.0.0.1"
      = (.falha, ⟨[], [], [], [], [], 1⟩) :=
  ⟨⟨⟨"Fix pump", rfl, by decide⟩, rfl, rfl⟩, rfl⟩

/-- Witness for `C5_contrato_criacao`: the rejection branch at a too-short
name, and the creation branch at a fully supplied request body with no tag
and no status. -/
theorem C5_contrato_criacao_witness :
    (∃ msg, postDemandas ⟨[], [], [], [], [], 1⟩ [("nomeDemanda", JVal.jstr "ab")]
        (JVal.jnum 99) 1700000000000 "2025-01-01T00:00:00.000Z" "2025-01-01 00:00:00" "10.0.0.1"
      = (.invalida msg, ⟨[], [], [], [], [], 1⟩))
    ∧ (∃ r st2, postDemandas ⟨[], [], [], [], [], 1⟩
        [("nomeDemanda", JVal.jstr "Fix pump"), ("categoria", JVal.jstr "manutencao"),
         ("dataLimite", JVal.jstr "2025-01-01"), ("funcionarioId", JVal.jnum 7),
         ("nomeFuncionario", JVal.jstr "Ana"), ("emailFuncionario", JVal.jstr "ana@ex.com"),
         ("prioridade", JVal.jstr "alta"), ("complexidade", JVal.jstr "media"),
         ("descricao", JVal.jstr "conserto"), ("local", JVal.jstr "sala")]
        (JVal.jnum 99) 1700000000000 "2025-01-01T00:00:00.000Z" "2025-01-01 00:00:00" "10.0.0.1"
        = (r, st2)
        ∧ st2.demandas = ([] : List JObj) ++ [linhaCriacao 1
            (ligarColunas (colunasCriacao (demandaComTag
              [("nomeDemanda", JVal.jstr "Fix pump"), ("categoria", JVal.jstr "manutencao"),
               ("dataLimite", JVal.jstr "2025-01-01"), ("funcionarioId", JVal.jnum 7),
               ("nomeFuncionario", JVal.jstr "Ana"), ("emailFuncionario", JVal.jstr "ana@ex.com"),
               ("prioridade", JVal.jstr "alta"), ("complexidade", JVal.jstr "media"),
               ("descricao", JVal.jstr "conserto"), ("local", JVal.jstr "sala")] 1700000000000)
              (JVal.jnum 99) "2025-01-01T00:00:00.000Z")) "2025-01-01 00:00:00"]
        ∧ jget (linhaCriacao 1
            (ligarColunas (colunasCriacao (demandaComTag
              [("nomeDemanda", JVal.jstr "Fix pump"), ("categoria", JVal.jstr "manutencao"),
               ("dataLimite", JVal.jstr "2025-01-01"), ("funcionarioId", JVal.jnum 7),
               ("nomeFuncionario", JVal.jstr "Ana"), ("emailFuncionario", JVal.jstr "ana@ex.com"),
               ("prioridade", JVal.jstr "alta"), ("complexidade", JVal.jstr "media"),
               ("descricao", JVal.jstr "conserto"), ("local", JVal.jstr "sala")] 1700000000000)
              (JVal.jnum 99) "2025-01-01T00:00:00.000Z")) "2025-01-01 00:00:00") "tag"
            = JVal.jstr ("DEM-" ++ natRepr 1700000000000)
        ∧ tagPadraoDEM ("DEM-" ++ natRepr 1700000000000) = true
        ∧ jget (linhaCriacao 1
            (ligarColunas (colunasCriacao (demandaComTag
              [("nomeDemanda", JVal.jstr "Fix pump"), ("categoria", JVal.jstr "manutencao"),
               ("dataLimite", JVal.jstr "2025-01-01"), ("funcionarioId", JVal.jnum 7),
               ("nomeFuncionario", JVal.jstr "Ana"), ("emailFuncionario", JVal.jstr "ana@ex.com"),
               ("prioridade", JVal.jstr "alta"), ("complexidade", JVal.jstr "media"),
               ("descricao", JVal.jstr "conserto"), ("local", JVal.jstr "sala")] 1700000000000)
              (JVal.jnum 99) "2025-01-01T00:00:00.000Z")) "2025-01-01 00:00:00") "status"
            = JVal.jstr "pendente") :=
  ⟨(C5_contrato_criacao ⟨[], [], [], [], [], 1⟩ [("nomeDemanda", JVal.jstr "ab")]
      (JVal.jnum 99) 1700000000000 "2025-01-01T00:00:00.000Z" "2025-01-01 00:00:00" "10.0.0.1").1
      (Or.inl rfl)
      (by
        intro hcv
        obtain ⟨⟨s, hs, h3⟩, -, -⟩ := hcv
        have hs2 : JVal.jstr "ab" = JVal.jstr s := hs
        injection hs2 with hse
        subst hse
        exact absurd h3 (by decide)),
   (C5_contrato_criacao ⟨[], [], [], [], [], 1⟩
      [("nomeDemanda", JVal.jstr "Fix pump"), ("categoria", JVal.jstr "manutencao"),
       ("dataLimite", JVal.jstr "2025-01-01"), ("funcionarioId", JVal.jnum 7),
       ("nomeFuncionario", JVal.jstr "Ana"), ("emailFuncionario", JVal.jstr "ana@ex.com"),
       ("prioridade", JVal.jstr "alta"), ("complexidade", JVal.jstr "media"),
       ("descricao", JVal.jstr "conserto"), ("local", JVal.jstr "sala")]
      (JVal.jnum 99) 1700000000000 "2025-01-01T00:00:00.000Z" "2025-01-01 00:00:00" "10.0.0.1").2
      ⟨⟨"Fix pump", rfl, by decide⟩, rfl, rfl⟩ rfl rfl (by decide) (by decide) (by decide)⟩

/-! ## Demand update (PUT /api/demandas/:id, src/server.js lines 831-943)

The effective (first-registered) PUT handler.  Its UPDATE statement sets
23 columns; `id`, `dataCriacao`, `criadoPor` and `comentariosUsuarios` are
not among them. -/

/-- `const dadosCompletos = \x7b ...demandaExistente, ...dadosNormalizados \x7d`
followed by the update-time and actor stamps. -/
def dadosCompletosAtualizacao (row payload : JObj) (usuarioId : JVal) (nowIso : String) : JObj :=
  jset (jset (jspread row (normalizarDadosDemanda payload))
    "dataAtualizacao" (.jstr nowIso)) "atualizadoPor" usuarioId

/-- The UPDATE parameter list of the PUT handler, in source order. -/
def colunasAtualizacao (dc : JObj) : List (String × JVal) :=
  [("funcionarioId", jget dc "funcionarioId"),
   ("nomeFuncionario", jget dc "nomeFuncionario"),
   ("emailFuncionario", jget dc "emailFuncionario"),
   ("categoria", jget dc "categoria"),
   ("prioridade", jget dc "prioridade"),
   ("complexidade", jget dc "complexidade"),
   ("descricao", jget dc "descricao"),
   ("local", jget dc "local"),
   ("dataLimite", jget dc "dataLimite"),
   ("status", jget dc "status"),
   ("isRotina", .jnum (if truthy (jget dc "isRotina") then 1 else 0)),
   ("diasSemana", .jstr (jsonStringify (jget dc "diasSemana"))),
   ("tag", jget dc "tag"),
   ("comentarios", jor (jget dc "comentarios") (.jstr "")),
   ("comentarioGestor", jor (jget dc "comentarioGestor") (.jstr "")),
   ("dataConclusao", jor (jget dc "dataConclusao") .jnull),
   ("atribuidos", .jstr (jsonStringify (jget dc "atribuidos"))),
   ("anexosCriacao", .jstr (jsonStringify (jget dc "anexosCriacao"))),
   ("anexosResolucao", .jstr (jsonStringify (jget dc "anexosResolucao"))),
   ("comentarioReprovacaoAtribuicao", jor (jget dc "comentarioReprovacaoAtribuicao") (.jstr "")),
   ("nomeDemanda", jget dc "nomeDemanda"),
   ("dataAtualizacao", jget dc "dataAtualizacao"),
   ("atualizadoPor", jget dc "atualizadoPor")]

/-- Apply the SET clauses to the stored row (columns not mentioned keep
their stored values). -/
def aplicarAtualizacao (row : JObj) (cols : List (String × JVal)) : JObj :=
  cols.foldl (fun r p => jset r p.1 (sqlBindVal p.2)) row

/-- The UNIQUE-tag constraint against the other rows on UPDATE. -/
def tagConflictExceto (demandas : List JObj) (id : Int) (row : JObj) : Bool :=
  match jget row "tag" with
  | JVal.jnull => false
  | t => demandas.any (fun r =>
      !(jsStrictEq (jget r "id") (.jnum id)) && jsStrictEq (jget r "tag") t)

/-- Outcome of the update handler. -/
inductive RespostaAtualizacao where
  | naoEncontrada
  | falha
  | atualizada (demanda : JObj)
deriving Repr

/-- The PUT /api/demandas/:id handler (effective first copy, lines
831-943): load, normalize the payload, spread-merge, stamp, UPDATE,
audit, notify the owner on a changed status becoming `aprovada` or
`reprovada`, and trigger a `status_change` backup whenever the final
status is `aprovada` or `reprovada` (regardless of the prior status). -/
def putDemandas (st : ServerState) (id : Int) (payload : JObj) (usuarioId : JVal)
    (nowIso ip : String) : RespostaAtualizacao × ServerState :=
  match encontrarDemanda st id with
  | none => (.naoEncontrada, st)
  | some row =>
    let dc := dadosCompletosAtualizacao row payload usuarioId nowIso
    let cols := colunasAtualizacao dc
    let novo := aplicarAtualizacao row cols
    if colunasBindaveis cols && notNullOk novo && !tagConflictExceto st.demandas id novo then
      let st1 := substituirDemanda st id novo
      let st2 := registrarAuditoria st1 "UPDATE" "demandas" (.jnum id)
        (.jobj row) (.jobj dc) usuarioId ip
      let st3 :=
        if !(jsStrictEq (jget row "status") (jget dc "status")) then
          if jsStrictEq (jget dc "status") (.jstr "aprovada") then
            criarNotificacao st2 (jget dc "funcionarioId") "demanda_aprovada" "Demanda Aprovada"
              ("Sua demanda \"" ++ jsToString (jget dc "nomeDemanda") ++ "\" foi aprovada!")
              (jget dc "tag") (.jbool false) nowIso
          else if jsStrictEq (jget dc "status") (.jstr "reprovada") then
            criarNotificacao st2 (jget dc "funcionarioId") "demanda_reprovada" "Demanda Reprovada"
              ("Sua demanda \"" ++ jsToString (jget dc "nomeDemanda") ++ "\" foi reprovada.")
              (jget dc "tag") (.jbool false) nowIso
          else st2
        else st2
      let st4 :=
        if jsStrictEq (jget dc "status") (.jstr "aprovada")
            || jsStrictEq (jget dc "status") (.jstr "reprovada") then
          criarBackup st3 "status_change"
        else st3
      (.atualizada (jspread [("id", .jnum id)] dc), st4)
    else (.falha, st)

/-! ## Claim C3: partial-update frame property -/

theorem jget_jspread_ausente (b a : JObj) (f : String) (h : jhas b f = false) :
    jget (jspread a b) f = jget a f := by
  induction b generalizing a with
  | nil => rfl
  | cons p rest ih =>
      simp only [jhas, Bool.or_eq_false_iff, beq_eq_false_iff_ne] at h
      show jget (jspread (jset a p.1 p.2) rest) f = jget a f
      rw [ih _ h.2]
      exact jget_jset_ne _ _ _ _ h.1

theorem jhas_normalizar_outro (o : JObj) (f : String)
    (h1 : f ≠ "diasSemana") (h2 : f ≠ "atribuidos") (h3 : f ≠ "isRotina")
    (h4 : f ≠ "anexosCriacao") (h5 : f ≠ "anexosResolucao")
    (h6 : f ≠ "comentariosUsuarios") :
    jhas (normalizarDadosDemanda o) f = jhas o f := by
  have e1 : (("diasSemana" : String) == f) = false := by simp [Ne.symm h1]
  have e2 : (("atribuidos" : String) == f) = false := by simp [Ne.symm h2]
  have e3 : (("isRotina" : String) == f) = false := by simp [Ne.symm h3]
  have e4 : (("anexosCriacao" : String) == f) = false := by simp [Ne.symm h4]
  have e5 : (("anexosResolucao" : String) == f) = false := by simp [Ne.symm h5]
  have e6 : (("comentariosUsuarios" : String) == f) = false := by simp [Ne.symm h6]
  simp only [normalizarDadosDemanda, jhas_jset, e1, e2, e3, e4, e5, e6, Bool.false_or]

/-- A value of a type SQLite actually stores in the modelled TEXT and
INTEGER columns. -/
def valorSQL : JVal → Bool
  | .jnull => true
  | .jnum _ => true
  | .jstr _ => true
  | _ => false

theorem sqlBindVal_valorSQL (v : JVal) (h : valorSQL v = true) : sqlBindVal v = v := by
  cases v <;> simp_all [valorSQL, sqlBindVal]

theorem sqlBindVal_jor_vazio (v : JVal) (h : v.isString = true) :
    sqlBindVal (jor v (.jstr "")) = v := by
  cases v with
  | jstr s => by_cases hs : s = "" <;> simp [jor, truthy, hs, sqlBindVal]
  | jnull => simp [JVal.isString] at h
  | jundef => simp [JVal.isString] at h
  | jnan => simp [JVal.isString] at h
  | jbool b => simp [JVal.isString] at h
  | jnum n => simp [JVal.isString] at h
  | jarr xs => simp [JVal.isString] at h
  | jobj fs => simp [JVal.isString] at h

theorem sqlBindVal_jor_null (v : JVal)
    (h : v = .jnull ∨ ∃ s, v = .jstr s ∧ s ≠ "") :
    sqlBindVal (jor v .jnull) = v := by
  rcases h with h | ⟨s, hs, hne⟩
  · subst h; rfl
  · subst hs; simp [jor, truthy, hne, sqlBindVal]

/-- The 16 UPDATE columns that keep their stored value when absent from
the payload (every UPDATE column except the five normalizer-materialized
list/boolean fields and the two stamped fields). -/
def colunasPreservadasUpdate : List String :=
  ["funcionarioId", "nomeFuncionario", "emailFuncionario", "categoria", "prioridade",
   "complexidade", "descricao", "local", "dataLimite", "status", "tag",
   "comentarios", "comentarioGestor", "dataConclusao",
   "comentarioReprovacaoAtribuicao", "nomeDemanda"]

/-- The columns outside the UPDATE statement, always preserved. -/
def colunasForaUpdate : List String :=
  ["id", "dataCriacao", "criadoPor", "comentariosUsuarios"]

/-- Per-column well-formedness of the stored row under which the identity
encodings (`|| ''`, `|| null`, plain bind) return the stored value
unchanged. -/
def linhaCanonicaEm (row : JObj) (f : String) : Prop :=
  if f = "comentarios" ∨ f = "comentarioGestor" ∨ f = "comentarioReprovacaoAtribuicao" then
    (jget row f).isString = true
  else if f = "dataConclusao" then
    jget row f = .jnull ∨ ∃ s, jget row f = .jstr s ∧ s ≠ ""
  else valorSQL (jget row f) = true

/-- Reading a merged-and-stamped field that the payload does not supply
and the normalizer does not materialize gives the stored value. -/
theorem jget_dadosCompletos_ausente (row payload : JObj) (usuarioId : JVal)
    (nowIso : String) (f : String)
    (hna : f ∉ camposLista) (hni : f ≠ "isRotina")
    (hda : f ≠ "dataAtualizacao") (hap : f ≠ "atualizadoPor")
    (habs : jhas payload f = false) :
    jget (dadosCompletosAtualizacao row payload usuarioId nowIso) f = jget row f := by
  simp only [camposLista, List.mem_cons, List.not_mem_nil, or_false, not_or] at hna
  obtain ⟨n1, n2, n4, n5, n6⟩ := hna
  rw [dadosCompletosAtualizacao, jget_jset_ne _ _ _ _ (Ne.symm hap),
    jget_jset_ne _ _ _ _ (Ne.symm hda),
    jget_jspread_ausente _ _ _ (by rw [jhas_normalizar_outro _ _ n1 n2 hni n4 n5 n6]; exact habs)]

/-- The state produced by the success path of the PUT handler. -/
def putEstadoSucesso (st : ServerState) (id : Int) (payload : JObj) (usuarioId : JVal)
    (nowIso ip : String) (row : JObj) : ServerState :=
  let dc := dadosCompletosAtualizacao row payload usuarioId nowIso
  let novo := aplicarAtualizacao row (colunasAtualizacao dc)
  let st1 := substituirDemanda st id novo
  let st2 := registrarAuditoria st1 "UPDATE" "demandas" (.jnum id)
    (.jobj row) (.jobj dc) usuarioId ip
  let st3 :=
    if !(jsStrictEq (jget row "status") (jget dc "status")) then
      if jsStrictEq (jget dc "status") (.jstr "aprovada") then
        criarNotificacao st2 (jget dc "funcionarioId") "demanda_aprovada" "Demanda Aprovada"
          ("Sua demanda \"" ++ jsToString (jget dc "nomeDemanda") ++ "\" foi aprovada!")
          (jget dc "tag") (.jbool false) nowIso
      else if jsStrictEq (jget dc "status") (.jstr "reprovada") then
        criarNotificacao st2 (jget dc "funcionarioId") "demanda_reprovada" "Demanda Reprovada"
          ("Sua demanda \"" ++ jsToString (jget dc "nomeDemanda") ++ "\" foi reprovada.")
          (jget dc "tag") (.jbool false) nowIso
      else st2
    else st2
  if jsStrictEq (jget dc "status") (.jstr "aprovada")
      || jsStrictEq (jget dc "status") (.jstr "reprovada") then
    criarBackup st3 "status_change"
  else st3

theorem putDemandas_sucesso (st : ServerState) (id : Int) (payload : JObj)
    (usuarioId : JVal) (nowIso ip : String) (row : JObj)
    (hrow : encontrarDemanda st id = some row)
    (hok : (colunasBindaveis (colunasAtualizacao (dadosCompletosAtualizacao row payload usuarioId nowIso))
        && notNullOk (aplicarAtualizacao row (colunasAtualizacao (dadosCompletosAtualizacao row payload usuarioId nowIso)))
        && !tagConflictExceto st.demandas id (aplicarAtualizacao row (colunasAtualizacao (dadosCompletosAtualizacao row payload usuarioId nowIso)))) = true) :
    putDemandas st id payload usuarioId nowIso ip
      = (.atualizada (jspread [("id", JVal.jnum id)]
          (dadosCompletosAtualizacao row payload usuarioId nowIso)),
         putEstadoSucesso st id payload usuarioId nowIso ip row) := by
  simp only [putDemandas, hrow, hok, if_true, putEstadoSucesso]

theorem criarBackup_demandas (st : ServerState) (t : String) :
    (criarBackup st t).demandas = st.demandas := rfl

theorem criarNotificacao_demandas (st : ServerState) (u : JVal) (a b c : String)
    (tg pr : JVal) (n : String) : (criarNotificacao st u a b c tg pr n).demandas = st.demandas := rfl

theorem registrarAuditoria_demandas (st : ServerState) (a t : String) (r da dn u : JVal)
    (ip : String) : (registrarAuditoria st a t r da dn u ip).demandas = st.demandas := rfl

theorem criarBackup_backups (st : ServerState) (t : String) :
    (criarBackup st t).backups = st.backups ++ [t] := rfl

theorem criarNotificacao_backups (st : ServerState) (u : JVal) (a b c : String)
    (tg pr : JVal) (n : String) : (criarNotificacao st u a b c tg pr n).backups = st.backups := rfl

theorem registrarAuditoria_backups (st : ServerState) (a t : String) (r da dn u : JVal)
    (ip : String) : (registrarAuditoria st a t r da dn u ip).backups = st.backups := rfl

theorem substituirDemanda_backups (st : ServerState) (id : Int) (novo : JObj) :
    (substituirDemanda st id novo).backups = st.backups := rfl

theorem criarBackup_notificacoes (st : ServerState) (t : String) :
    (criarBackup st t).notificacoes = st.notificacoes := rfl

theorem registrarAuditoria_notificacoes (st : ServerState) (a t : String) (r da dn u : JVal)
    (ip : String) : (registrarAuditoria st a t r da dn u ip).notificacoes = st.notificacoes := rfl

theorem substituirDemanda_notificacoes (st : ServerState) (id : Int) (novo : JObj) :
    (substituirDemanda st id novo).notificacoes = st.notificacoes := rfl

theorem criarNotificacao_notificacoes (st : ServerState) (u : JVal) (a b c : String)
    (tg pr : JVal) (n : String) :
    (criarNotificacao st u a b c tg pr n).notificacoes = st.notificacoes ++
      [{ usuarioId := u, tipo := a, titulo := b, mensagem := c,
         tag := tg, prioridade := pr, dataCriacao := n }] := rfl

theorem putEstadoSucesso_demandas (st : ServerState) (id : Int) (payload : JObj)
    (usuarioId : JVal) (nowIso ip : String) (row : JObj) :
    (putEstadoSucesso st id payload usuarioId nowIso ip row).demandas
      = (substituirDemanda st id (aplicarAtualizacao row
          (colunasAtualizacao (dadosCompletosAtualizacao row payload usuarioId nowIso)))).demandas := by
  simp only [putEstadoSucesso, apply_ite ServerState.demandas, criarBackup_demandas,
    criarNotificacao_demandas, registrarAuditoria_demandas, ite_self]

theorem putEstadoSucesso_backups (st : ServerState) (id : Int) (payload : JObj)
    (usuarioId : JVal) (nowIso ip : String) (row : JObj) :
    (putEstadoSucesso st id payload usuarioId nowIso ip row).backups
      = st.backups ++
        (if jsStrictEq (jget (dadosCompletosAtualizacao row payload usuarioId nowIso) "status") (.jstr "aprovada")
            || jsStrictEq (jget (dadosCompletosAtualizacao row payload usuarioId nowIso) "status") (.jstr "reprovada")
         then ["status_change"] else []) := by
  simp only [putEstadoSucesso, apply_ite ServerState.backups, criarBackup_backups,
    criarNotificacao_backups, registrarAuditoria_backups, substituirDemanda_backups, ite_self]
  split <;> simp

theorem putEstadoSucesso_notificacoes (st : ServerState) (id : Int) (payload : JObj)
    (usuarioId : JVal) (nowIso ip : String) (row : JObj) :
    (putEstadoSucesso st id payload usuarioId nowIso ip row).notificacoes
      = st.notificacoes ++
        (if !(jsStrictEq (jget row "status")
              (jget (dadosCompletosAtualizacao row payload usuarioId nowIso) "status")) then
          (if jsStrictEq (jget (dadosCompletosAtualizacao row payload usuarioId nowIso) "status")
              (.jstr "aprovada") then
            [{ usuarioId := jget (dadosCompletosAtualizacao row payload usuarioId nowIso) "funcionarioId",
               tipo := "demanda_aprovada", titulo := "Demanda Aprovada",
               mensagem := "Sua demanda \"" ++ jsToString (jget (dadosCompletosAtualizacao row payload usuarioId nowIso) "nomeDemanda") ++ "\" foi aprovada!",
               tag := jget (dadosCompletosAtualizacao row payload usuarioId nowIso) "tag",
               prioridade := JVal.jbool false, dataCriacao := nowIso }]
          else if jsStrictEq (jget (dadosCompletosAtualizacao row payload usuarioId nowIso) "status")
              (.jstr "reprovada") then
            [{ usuarioId := jget (dadosCompletosAtualizacao row payload usuarioId nowIso) "funcionarioId",
               tipo := "demanda_reprovada", titulo := "Demanda Reprovada",
               mensagem := "Sua demanda \"" ++ jsToString (jget (dadosCompletosAtualizacao row payload usuarioId nowIso) "nomeDemanda") ++ "\" foi reprovada.",
               tag := jget (dadosCompletosAtualizacao row payload usuarioId nowIso) "tag",
               prioridade := JVal.jbool false, dataCriacao := nowIso }]
          else [])
        else []) := by
  simp only [putEstadoSucesso, apply_ite ServerState.notificacoes, criarBackup_notificacoes,
    criarNotificacao_notificacoes, registrarAuditoria_notificacoes,
    substituirDemanda_notificacoes, ite_self]
  split
  · split
    · simp
    · split <;> simp
  · simp

theorem find_substituir (l : List JObj) (id : Int) (novo : JObj)
    (hid : jsStrictEq (jget novo "id") (.jnum id) = true) :
    ∀ row, l.find? (fun r => jsStrictEq (jget r "id") (.jnum id)) = some row →
    (l.map (fun r => if jsStrictEq (jget r "id") (.jnum id) then novo else r)).find?
        (fun r => jsStrictEq (jget r "id") (.jnum id)) = some novo := by
  induction l with
  | nil => intro row h; simp at h
  | cons a rest ih =>
      intro row h
      by_cases ha : jsStrictEq (jget a "id") (.jnum id) = true
      · simp only [List.map_cons, if_pos ha]
        simp [List.find?_cons_of_pos, hid]
      · simp only [List.map_cons, if_neg ha]
        rw [List.find?_cons_of_neg _ (by simpa using ha)]
        rw [List.find?_cons_of_neg _ (by simpa using ha)] at h
        exact ih row h

/-- Claim C3, amended.  As stated the claim is false (see
`C3_counterexample`): the handler normalizes the *partial payload* before
merging, and normalization materializes `diasSemana`, `atribuidos`,
`anexosCriacao`, `anexosResolucao`, `comentariosUsuarios` and `isRotina`
on the payload even when absent (empty lists and `false`), so those
columns are overwritten rather than preserved.  Amended statement: on a
successful update, every UPDATE column other than the five
normalizer-materialized ones and the two stamps keeps its stored value
when absent from the payload (given the stored value has the column's
canonical SQL shape), the columns outside the UPDATE statement (`id`,
`dataCriacao`, `criadoPor`, `comentariosUsuarios`) are always preserved,
and `dataAtualizacao` and `atualizadoPor` are stamped. -/
theorem C3_atualizacao_parcial (st : ServerState) (id : Int) (payload row : JObj)
    (usuarioId : JVal) (nowIso ip : String)
    (hrow : encontrarDemanda st id = some row)
    (hok : (colunasBindaveis (colunasAtualizacao (dadosCompletosAtualizacao row payload usuarioId nowIso))
        && notNullOk (aplicarAtualizacao row (colunasAtualizacao (dadosCompletosAtualizacao row payload usuarioId nowIso)))
        && !tagConflictExceto st.demandas id (aplicarAtualizacao row (colunasAtualizacao (dadosCompletosAtualizacao row payload usuarioId nowIso)))) = true) :
    (∀ f ∈ colunasForaUpdate,
        jget (aplicarAtualizacao row (colunasAtualizacao
          (dadosCompletosAtualizacao row payload usuarioId nowIso))) f = jget row f)
    ∧ (∀ f ∈ colunasPreservadasUpdate, jhas payload f = false → linhaCanonicaEm row f →
        jget (aplicarAtualizacao row (colunasAtualizacao
          (dadosCompletosAtualizacao row payload usuarioId nowIso))) f = jget row f)
    ∧ jget (aplicarAtualizacao row (colunasAtualizacao
        (dadosCompletosAtualizacao row payload usuarioId nowIso))) "dataAtualizacao"
        = .jstr nowIso
    ∧ jget (aplicarAtualizacao row (colunasAtualizacao
        (dadosCompletosAtualizacao row payload usuarioId nowIso))) "atualizadoPor"
        = sqlBindVal usuarioId
    ∧ encontrarDemanda (putDemandas st id payload usuarioId nowIso ip).2 id
        = some (aplicarAtualizacao row (colunasAtualizacao
            (dadosCompletosAtualizacao row payload usuarioId nowIso))) := by
  have hfora : ∀ f ∈ colunasForaUpdate,
      jget (aplicarAtualizacao row (colunasAtualizacao
        (dadosCompletosAtualizacao row payload usuarioId nowIso))) f = jget row f := by
    intro f hf
    fin_cases hf <;>
      simp [aplicarAtualizacao, colunasAtualizacao, jget_jset_self, jget_jset_ne]
  refine ⟨hfora, ?_, ?_, ?_, ?_⟩
  · intro f hf habs hcan
    have hdc : jget (dadosCompletosAtualizacao row payload usuarioId nowIso) f = jget row f := by
      refine jget_dadosCompletos_ausente row payload usuarioId nowIso f ?_ ?_ ?_ ?_ habs
      all_goals fin_cases hf <;> decide
    fin_cases hf <;>
      (simp [aplicarAtualizacao, colunasAtualizacao, jget_jset_self, jget_jset_ne, hdc] <;>
       simp [linhaCanonicaEm] at hcan) <;>
      first
        | exact sqlBindVal_valorSQL _ hcan
        | exact sqlBindVal_jor_vazio _ hcan
        | exact sqlBindVal_jor_null _ hcan
  · have h1 : jget (dadosCompletosAtualizacao row payload usuarioId nowIso) "dataAtualizacao"
        = .jstr nowIso := by
      rw [dadosCompletosAtualizacao, jget_jset_ne _ _ _ _ (by decide), jget_jset_self]
    simp [aplicarAtualizacao, colunasAtualizacao, jget_jset_self, jget_jset_ne, h1, sqlBindVal]
  · have h1 : jget (dadosCompletosAtualizacao row payload usuarioId nowIso) "atualizadoPor"
        = usuarioId := by
      rw [dadosCompletosAtualizacao, jget_jset_self]
    simp [aplicarAtualizacao, colunasAtualizacao, jget_jset_self, jget_jset_ne, h1]
  · have hpred : jsStrictEq (jget row "id") (.jnum id) = true := by
      have := List.find?_some hrow
      simpa using this
    have hid2 : jsStrictEq (jget (aplicarAtualizacao row (colunasAtualizacao
        (dadosCompletosAtualizacao row payload usuarioId nowIso))) "id") (.jnum id) = true := by
      rw [hfora "id" (by simp [colunasForaUpdate])]
      exact hpred
    rw [putDemandas_sucesso st id payload usuarioId nowIso ip row hrow hok]
    show ((putEstadoSucesso st id payload usuarioId nowIso ip row).demandas.find? _) = _
    rw [putEstadoSucesso_demandas]
    exact find_substituir st.demandas id _ hid2 row hrow

/-- A canonical stored demand row used as concrete input for the update
and delete claims. -/
def linhaExemploC3 : JObj :=
  [("id", JVal.jnum 1), ("funcionarioId", JVal.jnum 7), ("nomeFuncionario", JVal.jstr "Ana"),
   ("emailFuncionario", JVal.jstr "ana@ex.com"), ("categoria", JVal.jstr "manutencao"),
   ("prioridade", JVal.jstr "alta"), ("complexidade", JVal.jstr "media"),
   ("descricao", JVal.jstr "conserto"), ("local", JVal.jstr "sala"),
   ("dataCriacao", JVal.jstr "2024-01-01T00:00:00.000Z"), ("dataLimite", JVal.jstr "2025-01-01"),
   ("status", JVal.jstr "pendente"), ("isRotina", JVal.jnum 1),
   ("diasSemana", JVal.jstr "[1,2]"), ("tag", JVal.jstr "DEM-1"),
   ("comentarios", JVal.jstr ""), ("comentarioGestor", JVal.jstr ""),
   ("dataConclusao", JVal.jnull), ("atribuidos", JVal.jstr "[]"),
   ("anexosCriacao", JVal.jstr "[]"), ("anexosResolucao", JVal.jstr "[]"),
   ("comentarioReprovacaoAtribuicao", JVal.jstr ""), ("nomeDemanda", JVal.jstr "Tarefa"),
   ("dataAtualizacao", JVal.jstr "2024-01-01T00:00:00.000Z"), ("criadoPor", JVal.jnum 7),
   ("atualizadoPor", JVal.jnull), ("comentariosUsuarios", JVal.jstr "[]")]

/-- A server state holding only `linhaExemploC3`. -/
def estadoExemploC3 : ServerState := ⟨[linhaExemploC3], [], [], [], [], 2⟩

/-- Counterexample to claim C3 as stated: updating the stored demand with
the empty payload (which supplies none of the fields) succeeds, yet the
stored `isRotina` flips from `1` to `0` and `diasSemana` from `"[1,2]"`
to `"[]"` - the normalizer materializes those fields on the empty payload
and the merge overwrites them. -/
theorem C3_counterexample :
    jhas ([] : JObj) "isRotina" = false
    ∧ jhas ([] : JObj) "diasSemana" = false
    ∧ jget linhaExemploC3 "isRotina" = JVal.jnum 1
    ∧ jget linhaExemploC3 "diasSemana" = JVal.jstr "[1,2]"
    ∧ (∃ d, (putDemandas estadoExemploC3 1 [] (JVal.jnum 7)
        "2025-01-02T00:00:00.000Z" "10.0.0.1").1 = .atualizada d)
    ∧ (encontrarDemanda (putDemandas estadoExemploC3 1 [] (JVal.jnum 7)
        "2025-01-02T00:00:00.000Z" "10.0.0.1").2 1).map (fun r => jget r "isRotina")
        = some (JVal.jnum 0)
    ∧ (encontrarDemanda (putDemandas estadoExemploC3 1 [] (JVal.jnum 7)
        "2025-01-02T00:00:00.000Z" "10.0.0.1").2 1).map (fun r => jget r "diasSemana")
        = some (JVal.jstr "[]") :=
  ⟨rfl, rfl, rfl, rfl, ⟨_, rfl⟩, rfl, rfl⟩

/-- Witness for `C3_atualizacao_parcial` at the stored example row and the
payload supplying only `descricao`: `comentariosUsuarios`, `status` and
`tag` keep their stored values, and the two stamps are written. -/
theorem C3_atualizacao_parcial_witness :
    jget (aplicarAtualizacao linhaExemploC3 (colunasAtualizacao
        (dadosCompletosAtualizacao linhaExemploC3 [("descricao", JVal.jstr "texto novo")]
          (JVal.jnum 7) "2025-01-02T00:00:00.000Z"))) "comentariosUsuarios"
      = jget linhaExemploC3 "comentariosUsuarios"
    ∧ jget (aplicarAtualizacao linhaExemploC3 (colunasAtualizacao
        (dadosCompletosAtualizacao linhaExemploC3 [("descricao", JVal.jstr "texto novo")]
          (JVal.jnum 7) "2025-01-02T00:00:00.000Z"))) "status"
      = jget linhaExemploC3 "status"
    ∧ jget (aplicarAtualizacao linhaExemploC3 (colunasAtualizacao
        (dadosCompletosAtualizacao linhaExemploC3 [("descricao", JVal.jstr "texto novo")]
          (JVal.jnum 7) "2025-01-02T00:00:00.000Z"))) "tag"
      = jget linhaExemploC3 "tag"
    ∧ jget (aplicarAtualizacao linhaExemploC3 (colunasAtualizacao
        (dadosCompletosAtualizacao linhaExemploC3 [("descricao", JVal.jstr "texto novo")]
          (JVal.jnum 7) "2025-01-02T00:00:00.000Z"))) "dataAtualizacao"
      = JVal.jstr "2025-01-02T00:00:00.000Z"
    ∧ encontrarDemanda (putDemandas estadoExemploC3 1 [("descricao", JVal.jstr "texto novo")]
        (JVal.jnum 7) "2025-01-02T00:00:00.000Z" "10.0.0.1").2 1
      = some (aplicarAtualizacao linhaExemploC3 (colunasAtualizacao
          (dadosCompletosAtualizacao linhaExemploC3 [("descricao", JVal.jstr "texto novo")]
            (JVal.jnum 7) "2025-01-02T00:00:00.000Z"))) :=
  ⟨(C3_atualizacao_parcial estadoExemploC3 1 [("descricao", JVal.jstr "texto novo")]
      linhaExemploC3 (JVal.jnum 7) "2025-01-02T00:00:00.000Z" "10.0.0.1" rfl rfl).1
      "comentariosUsuarios" (by decide),
   (C3_atualizacao_parcial estadoExemploC3 1 [("descricao", JVal.jstr "texto novo")]
      linhaExemploC3 (JVal.jnum 7) "2025-01-02T00:00:00.000Z" "10.0.0.1" rfl rfl).2.1
      "status" (by decide) rfl (by simp [linhaCanonicaEm, linhaExemploC3, jget, valorSQL]),
   (C3_atualizacao_parcial estadoExemploC3 1 [("descricao", JVal.jstr "texto novo")]
      linhaExemploC3 (JVal.jnum 7) "2025-01-02T00:00:00.000Z" "10.0.0.1" rfl rfl).2.1
      "tag" (by decide) rfl (by simp [linhaCanonicaEm, linhaExemploC3, jget, valorSQL]),
   (C3_atualizacao_parcial estadoExemploC3 1 [("descricao", JVal.jstr "texto novo")]
      linhaExemploC3 (JVal.jnum 7) "2025-01-02T00:00:00.000Z" "10.0.0.1" rfl rfl).2.2.1,
   (C3_atualizacao_parcial estadoExemploC3 1 [("descricao", JVal.jstr "texto novo")]
      linhaExemploC3 (JVal.jnum 7) "2025-01-02T00:00:00.000Z" "10.0.0.1" rfl rfl).2.2.2.2⟩

/-! ## Claim C4: status-change side effects -/

/-- The example row already in status `aprovada`. -/
def linhaAprovadaC4 : JObj := jset linhaExemploC3 "status" (JVal.jstr "aprovada")

/-- Counterexample to claim C4 as stated: updating a demand that is
already `aprovada` with an empty payload leaves the status unchanged
(no prior-status difference), yet a `status_change` backup is still
triggered - the handler checks only the final status, never the prior
one.  No notification is sent, confirming the status did not change. -/
theorem C4_counterexample :
    jget linhaAprovadaC4 "status" = JVal.jstr "aprovada"
    ∧ (putDemandas ⟨[linhaAprovadaC4], [], [], [], [], 2⟩ 1 [] (JVal.jnum 7)
        "2025-01-02T00:00:00.000Z" "10.0.0.1").2.backups = ["status_change"]
    ∧ (putDemandas ⟨[linhaAprovadaC4], [], [], [], [], 2⟩ 1 [] (JVal.jnum 7)
        "2025-01-02T00:00:00.000Z" "10.0.0.1").2.notificacoes = [] :=
  ⟨rfl, rfl, rfl⟩

/-- Claim C4, amended.  As stated the claim is false (see
`C4_counterexample`): the backup condition tests only whether the merged
final status is `aprovada` or `reprovada`, with no comparison against the
prior status.  Amended statement: on a successful update, exactly one
`status_change` backup snapshot is triggered when the final status is
`aprovada` or `reprovada` (and none otherwise), regardless of the prior
status; and updating a demand from status `pendente` to `aprovada`
produces exactly one notification to the owning employee and exactly one
`status_change` backup snapshot. -/
theorem C4_backup_mudanca_status (st : ServerState) (id : Int) (payload row : JObj)
    (usuarioId : JVal) (nowIso ip : String)
    (hrow : encontrarDemanda st id = some row)
    (hok : (colunasBindaveis (colunasAtualizacao (dadosCompletosAtualizacao row payload usuarioId nowIso))
        && notNullOk (aplicarAtualizacao row (colunasAtualizacao (dadosCompletosAtualizacao row payload usuarioId nowIso)))
        && !tagConflictExceto st.demandas id (aplicarAtualizacao row (colunasAtualizacao (dadosCompletosAtualizacao row payload usuarioId nowIso)))) = true) :
    ((putDemandas st id payload usuarioId nowIso ip).2.backups
      = st.backups ++
        (if jsStrictEq (jget (dadosCompletosAtualizacao row payload usuarioId nowIso) "status") (.jstr "aprovada")
            || jsStrictEq (jget (dadosCompletosAtualizacao row payload usuarioId nowIso) "status") (.jstr "reprovada")
         then ["status_change"] else []))
    ∧ (jget row "status" = JVal.jstr "pendente" →
        jget (dadosCompletosAtualizacao row payload usuarioId nowIso) "status" = JVal.jstr "aprovada" →
        (putDemandas st id payload usuarioId nowIso ip).2.notificacoes
          = st.notificacoes ++
            [{ usuarioId := jget (dadosCompletosAtualizacao row payload usuarioId nowIso) "funcionarioId",
               tipo := "demanda_aprovada", titulo := "Demanda Aprovada",
               mensagem := "Sua demanda \"" ++ jsToString (jget (dadosCompletosAtualizacao row payload usuarioId nowIso) "nomeDemanda") ++ "\" foi aprovada!",
               tag := jget (dadosCompletosAtualizacao row payload usuarioId nowIso) "tag",
               prioridade := JVal.jbool false, dataCriacao := nowIso }]
        ∧ (putDemandas st id payload usuarioId nowIso ip).2.backups
          = st.backups ++ ["status_change"]) := by
  rw [putDemandas_sucesso st id payload usuarioId nowIso ip row hrow hok]
  constructor
  · exact putEstadoSucesso_backups st id payload usuarioId nowIso ip row
  · intro hpend hapr
    constructor
    · rw [putEstadoSucesso_notificacoes, hpend, hapr]
      simp [jsStrictEq]
    · rw [putEstadoSucesso_backups, hapr]
      simp [jsStrictEq]

/-- Witness for `C4_backup_mudanca_status`: the example `pendente` demand
updated with payload `\x7bstatus:"aprovada"\x7d` gets exactly one owner
notification and exactly one `status_change` backup. -/
theorem C4_backup_mudanca_status_witness :
    (putDemandas estadoExemploC3 1 [("status", JVal.jstr "aprovada")] (JVal.jnum 7)
        "2025-01-02T00:00:00.000Z" "10.0.0.1").2.notificacoes
      = [] ++
        [{ usuarioId := jget (dadosCompletosAtualizacao linhaExemploC3
              [("status", JVal.jstr "aprovada")] (JVal.jnum 7) "2025-01-02T00:00:00.000Z") "funcionarioId",
           tipo := "demanda_aprovada", titulo := "Demanda Aprovada",
           mensagem := "Sua demanda \"" ++ jsToString (jget (dadosCompletosAtualizacao linhaExemploC3
              [("status", JVal.jstr "aprovada")] (JVal.jnum 7) "2025-01-02T00:00:00.000Z") "nomeDemanda") ++ "\" foi aprovada!",
           tag := jget (dadosCompletosAtualizacao linhaExemploC3
              [("status", JVal.jstr "aprovada")] (JVal.jnum 7) "2025-01-02T00:00:00.000Z") "tag",
           prioridade := JVal.jbool false, dataCriacao := "2025-01-02T00:00:00.000Z" }]
    ∧ (putDemandas estadoExemploC3 1 [("status", JVal.jstr "aprovada")] (JVal.jnum 7)
        "2025-01-02T00:00:00.000Z" "10.0.0.1").2.backups = [] ++ ["status_change"] :=
  (C4_backup_mudanca_status estadoExemploC3 1 [("status", JVal.jstr "aprovada")]
    linhaExemploC3 (JVal.jnum 7) "2025-01-02T00:00:00.000Z" "10.0.0.1" rfl rfl).2 rfl rfl

/-! ## Demand deletion (DELETE /api/demandas/:id, src/server.js lines 946-983) -/

/-- Outcome of the delete handler. -/
inductive RespostaExclusao where
  | naoEncontrada
  | excluida
deriving Repr

/-- The DELETE /api/demandas/:id handler (effective first copy): load the
row (404 when absent), physically DELETE it, record a `DELETE` audit entry
with the pre-delete snapshot and a null after-state (stored defaulted to
the empty object by the recorder), then unconditionally trigger a
`delete`-kind backup. -/
def deleteDemandas (st : ServerState) (id : Int) (usuarioId : JVal) (ip : String) :
    RespostaExclusao × ServerState :=
  match encontrarDemanda st id with
  | none => (.naoEncontrada, st)
  | some row =>
    let restantes := st.demandas.filter (fun r => !(jsStrictEq (jget r "id") (.jnum id)))
    let st1 := { st with demandas := restantes }
    let st2 := registrarAuditoria st1 "DELETE" "demandas" (.jnum id) (.jobj row) .jnull usuarioId ip
    let st3 := criarBackup st2 "delete"
    (.excluida, st3)

/-- Claim C6, amended.  As stated the claim is false in one stored detail
(see `C6_counterexample`): the audit recorder stores
`JSON.stringify(dadosNovos || \x7b\x7d)`, so the persisted after-state of a
DELETE entry is the empty-object serialization, not null.  Amended
statement: deleting a non-existent id fails with not-found and leaves the
whole state (demand table and audit log included) unchanged; deleting an
existing demand physically removes every row with that id, appends exactly
one DELETE audit entry whose before-state is the serialized pre-delete
snapshot and whose after-state is the serialized empty-object default of
the null argument, and always triggers one `delete`-kind backup. -/
theorem C6_contrato_exclusao (st : ServerState) (id : Int) (usuarioId : JVal) (ip : String) :
    (encontrarDemanda st id = none →
      deleteDemandas st id usuarioId ip = (.naoEncontrada, st))
    ∧ (∀ row, encontrarDemanda st id = some row →
        (deleteDemandas st id usuarioId ip).1 = .excluida
        ∧ (deleteDemandas st id usuarioId ip).2.demandas
            = st.demandas.filter (fun r => !(jsStrictEq (jget r "id") (.jnum id)))
        ∧ encontrarDemanda (deleteDemandas st id usuarioId ip).2 id = none
        ∧ (deleteDemandas st id usuarioId ip).2.auditoria
            = st.auditoria ++ [{ acao := "DELETE", tabela := "demandas",
                                 registroId := .jnum id,
                                 dadosAntigos := jsonStringify (.jobj row),
                                 dadosNovos := "\x7b\x7d", usuarioId := usuarioId,
                                 ip := ip }]
        ∧ (deleteDemandas st id usuarioId ip).2.backups = st.backups ++ ["delete"]) := by
  constructor
  · intro hnone
    simp only [deleteDemandas, hnone]
  · intro row hrow
    have hd : deleteDemandas st id usuarioId ip
        = (.excluida, criarBackup (registrarAuditoria
            { st with demandas := st.demandas.filter (fun r => !(jsStrictEq (jget r "id") (.jnum id))) }
            "DELETE" "demandas" (.jnum id) (.jobj row) .jnull usuarioId ip) "delete") := by
      simp only [deleteDemandas, hrow]
    rw [hd]
    refine ⟨rfl, rfl, ?_, rfl, rfl⟩
    show List.find? _ (st.demandas.filter (fun r => !(jsStrictEq (jget r "id") (.jnum id)))) = none
    rw [List.find?_eq_none]
    intro x hx
    have := (List.mem_filter.mp hx).2
    simp only [Bool.not_eq_true'] at this
    simp [this]

/-- Witness for `C6_contrato_exclusao`: the not-found branch at an absent
id and the delete branch at the stored example demand. -/
theorem C6_contrato_exclusao_witness :
    deleteDemandas estadoExemploC3 99 (JVal.jnum 7) "10.0.0.1"
      = (.naoEncontrada, estadoExemploC3)
    ∧ ((deleteDemandas estadoExemploC3 1 (JVal.jnum 7) "10.0.0.1").1 = .excluida
       ∧ (deleteDemandas estadoExemploC3 1 (JVal.jnum 7) "10.0.0.1").2.demandas
           = estadoExemploC3.demandas.filter (fun r => !(jsStrictEq (jget r "id") (.jnum 1)))
       ∧ encontrarDemanda (deleteDemandas estadoExemploC3 1 (JVal.jnum 7) "10.0.0.1").2 1 = none
       ∧ (deleteDemandas estadoExemploC3 1 (JVal.jnum 7) "10.0.0.1").2.auditoria
           = estadoExemploC3.auditoria ++ [{ acao := "DELETE", tabela := "demandas",
                                             registroId := .jnum 1,
                                             dadosAntigos := jsonStringify (.jobj linhaExemploC3),
                                             dadosNovos := "\x7b\x7d",
                                             usuarioId := JVal.jnum 7, ip := "10.0.0.1" }]
       ∧ (deleteDemandas estadoExemploC3 1 (JVal.jnum 7) "10.0.0.1").2.backups
           = estadoExemploC3.backups ++ ["delete"]) :=
  ⟨(C6_contrato_exclusao estadoExemploC3 99 (JVal.jnum 7) "10.0.0.1").1 rfl,
   (C6_contrato_exclusao estadoExemploC3 1 (JVal.jnum 7) "10.0.0.1").2 linhaExemploC3 rfl⟩

/-- Counterexample to claim C6 as stated: the stored after-state of the
DELETE audit entry is the serialized empty object, not null (the recorder
defaults `dadosNovos || \x7b\x7d` before serializing), so the recorded
after-state differs from a null after-state. -/
theorem C6_counterexample :
    (deleteDemandas estadoExemploC3 1 (JVal.jnum 7) "10.0.0.1").2.auditoria.map
        (fun e => e.dadosNovos) = ["\x7b\x7d"]
    ∧ "\x7b\x7d" ≠ jsonStringify JVal.jnull
    ∧ "\x7b\x7d" ≠ "null" :=
  ⟨rfl, by decide, by decide⟩

/-! ## Reassignment (POST /api/demandas/:id/reassign, src/server.js lines 2401-2502) -/

/-- SQLite numeric-affinity match of an INTEGER `id` column against a
bound request value. -/
def sqlIdMatch (rowId param : JVal) : Bool :=
  match param with
  | .jnum n => jsStrictEq rowId (.jnum n)
  | .jstr s => (strToNumber s).elim false (fun n => jsStrictEq rowId (.jnum n))
  | _ => false

/-- `SELECT * FROM usuarios WHERE id = ?`. -/
def encontrarUsuario (st : ServerState) (uid : JVal) : Option JObj :=
  st.usuarios.find? (fun r => sqlIdMatch (jget r "id") uid)

/-- `JSON.parse(demandaExistente.atribuidos || '[]')` guarded by
`try/catch` substituting `[]` (`JSON.parse` converts a non-string argument
to its string rendering first). -/
def atribuidosArmazenados (row : JObj) : JVal :=
  match jor (jget row "atribuidos") (.jstr "[]") with
  | .jstr s => (jsonParse s).getD (.jarr [])
  | v => (jsonParse (jsToString v)).getD (.jarr [])

/-- `atribuidosAtuais.find(a => a.id == novoAtribuidoId)`: `some found?`,
or `none` for the `TypeError` thrown on a `null`/`undefined` element. -/
def encontrarAtribuido : List JVal → JVal → Option Bool
  | [], _ => some false
  | a :: rest, alvo =>
      match propGet a "id" with
      | none => none
      | some aid => if jsLooseEq aid alvo then some true else encontrarAtribuido rest alvo

/-- Outcome of the reassignment handler. -/
inductive RespostaReatribuicao where
  | invalida (msg : String)
  | demandaNaoEncontrada
  | usuarioNaoEncontrado
  | lancada
  | reatribuida (demanda : JObj)
deriving Repr

/-- The POST /api/demandas/:id/reassign handler: require
`novoAtribuidoId` and `motivo`, load demand and new user, parse the
stored assignee list (decode failure degrades to `[]`), append the new
assignee only when no entry with a loosely equal id exists, force status
`atribuida_pendente_aceitacao`, append a dated note to the manager
comment, UPDATE those four columns, and audit a REASSIGN transition. -/
def reassignDemanda (st : ServerState) (id : Int) (body : JObj)
    (localeDate nowIso ip : String) : RespostaReatribuicao × ServerState :=
  let novoAtribuidoId := jget body "novoAtribuidoId"
  let motivo := jget body "motivo"
  if truthy novoAtribuidoId = false ∨ truthy motivo = false then
    (.invalida "Novo atribuído e motivo são obrigatórios", st)
  else
    match encontrarDemanda st id with
    | none => (.demandaNaoEncontrada, st)
    | some row =>
      match encontrarUsuario st novoAtribuidoId with
      | none => (.usuarioNaoEncontrado, st)
      | some novoUsuario =>
        match atribuidosArmazenados row with
        | .jarr xs =>
          (match encontrarAtribuido xs novoAtribuidoId with
           | none => (.lancada, st)
           | some ja =>
             let atribuidosNovos :=
               if ja then xs
               else xs ++ [JVal.jobj [("id", jget novoUsuario "id"),
                                      ("nome", jget novoUsuario "nome"),
                                      ("email", jget novoUsuario "email")]]
             let comentarioAtual := jor (jget row "comentarioGestor") (.jstr "")
             let novoComentario := jsToString comentarioAtual
               ++ "\n[Reatribuído em " ++ localeDate ++ " para "
               ++ jsToString (jget novoUsuario "nome") ++ ": " ++ jsToString motivo ++ "]"
             let novo := jset (jset (jset (jset row
               "atribuidos" (.jstr (jsonStringify (.jarr atribuidosNovos))))
               "status" (.jstr "atribuida_pendente_aceitacao"))
               "comentarioGestor" (.jstr novoComentario))
               "dataAtualizacao" (.jstr nowIso)
             let st1 := substituirDemanda st id novo
             let st2 := registrarAuditoria st1 "REASSIGN" "demandas" (.jnum id)
               (.jobj [("atribuidos", jget row "atribuidos"), ("status", jget row "status")])
               (.jobj [("atribuidos", .jarr atribuidosNovos),
                       ("status", .jstr "atribuida_pendente_aceitacao")])
               (jor (jget body "usuarioId") .jnull) ip
             (.reatribuida (normalizarDadosDemanda novo), st2))
        | _ => (.lancada, st)

theorem substituirDemanda_auditoria (st : ServerState) (id : Int) (novo : JObj) :
    (substituirDemanda st id novo).auditoria = st.auditoria := rfl

/-- Claim C7: reassigning a demand to an assignee whose id already occurs
in the stored assignee list leaves the list content unchanged (no
duplicate entry is appended), yet still forces the status to
`atribuida_pendente_aceitacao`, appends the dated note to the manager
comment field, and records a REASSIGN audit entry. -/
theorem C7_reatribuicao_existente (st : ServerState) (id : Int) (body row novoUsuario : JObj)
    (xs : List JVal) (localeDate nowIso ip : String)
    (hv1 : truthy (jget body "novoAtribuidoId") = true)
    (hv2 : truthy (jget body "motivo") = true)
    (hrow : encontrarDemanda st id = some row)
    (huser : encontrarUsuario st (jget body "novoAtribuidoId") = some novoUsuario)
    (hxs : atribuidosArmazenados row = .jarr xs)
    (hja : encontrarAtribuido xs (jget body "novoAtribuidoId") = some true) :
    ∃ novo st2, reassignDemanda st id body localeDate nowIso ip
        = (.reatribuida (normalizarDadosDemanda novo), st2)
      ∧ jget novo "atribuidos" = .jstr (jsonStringify (.jarr xs))
      ∧ jget novo "status" = .jstr "atribuida_pendente_aceitacao"
      ∧ jget novo "comentarioGestor" = .jstr (jsToString (jor (jget row "comentarioGestor") (.jstr ""))
          ++ "\n[Reatribuído em " ++ localeDate ++ " para " ++ jsToString (jget novoUsuario "nome")
          ++ ": " ++ jsToString (jget body "motivo") ++ "]")
      ∧ st2.auditoria = st.auditoria ++
          [{ acao := "REASSIGN", tabela := "demandas", registroId := .jnum id,
             dadosAntigos := jsonStringify (.jobj [("atribuidos", jget row "atribuidos"),
                                                   ("status", jget row "status")]),
             dadosNovos := jsonStringify (.jobj [("atribuidos", .jarr xs),
                                                 ("status", .jstr "atribuida_pendente_aceitacao")]),
             usuarioId := jor (jget body "usuarioId") .jnull, ip := ip }]
      ∧ st2.demandas = (substituirDemanda st id (jset (jset (jset (jset row
          "atribuidos" (.jstr (jsonStringify (.jarr xs))))
          "status" (.jstr "atribuida_pendente_aceitacao"))
          "comentarioGestor" (.jstr (jsToString (jor (jget row "comentarioGestor") (.jstr ""))
            ++ "\n[Reatribuído em " ++ localeDate ++ " para " ++ jsToString (jget novoUsuario "nome")
            ++ ": " ++ jsToString (jget body "motivo") ++ "]")))
          "dataAtualizacao" (.jstr nowIso))).demandas := by
  refine ⟨jset (jset (jset (jset row
      "atribuidos" (.jstr (jsonStringify (.jarr xs))))
      "status" (.jstr "atribuida_pendente_aceitacao"))
      "comentarioGestor" (.jstr (jsToString (jor (jget row "comentarioGestor") (.jstr ""))
        ++ "\n[Reatribuído em " ++ localeDate ++ " para " ++ jsToString (jget novoUsuario "nome")
        ++ ": " ++ jsToString (jget body "motivo") ++ "]")))
      "dataAtualizacao" (.jstr nowIso),
    registrarAuditoria (substituirDemanda st id (jset (jset (jset (jset row
      "atribuidos" (.jstr (jsonStringify (.jarr xs))))
      "status" (.jstr "atribuida_pendente_aceitacao"))
      "comentarioGestor" (.jstr (jsToString (jor (jget row "comentarioGestor") (.jstr ""))
        ++ "\n[Reatribuído em " ++ localeDate ++ " para " ++ jsToString (jget novoUsuario "nome")
        ++ ": " ++ jsToString (jget body "motivo") ++ "]")))
      "dataAtualizacao" (.jstr nowIso))) "REASSIGN" "demandas" (.jnum id)
      (.jobj [("atribuidos", jget row "atribuidos"), ("status", jget row "status")])
      (.jobj [("atribuidos", .jarr xs), ("status", .jstr "atribuida_pendente_aceitacao")])
      (jor (jget body "usuarioId") .jnull) ip, ?_, ?_, ?_, ?_, ?_, rfl⟩
  · simp only [reassignDemanda, hv1, hv2, hrow, huser, hxs, hja]
    simp
  · rw [jget_jset_ne _ _ _ _ (by decide), jget_jset_ne _ _ _ _ (by decide),
      jget_jset_ne _ _ _ _ (by decide), jget_jset_self]
  · rw [jget_jset_ne _ _ _ _ (by decide), jget_jset_ne _ _ _ _ (by decide),
      jget_jset_self]
  · rw [jget_jset_ne _ _ _ _ (by decide), jget_jset_self]
  · rfl

/-- The example row with assignee id 5 already in its stored list. -/
def linhaC7 : JObj :=
  jset linhaExemploC3 "atribuidos"
    (JVal.jstr "[\x7b\"id\":5,\"nome\":\"Bob\",\"email\":\"b@x.com\"\x7d]")

/-- The user row for assignee id 5. -/
def usuarioC7 : JObj :=
  [("id", JVal.jnum 5), ("nome", JVal.jstr "Bob"), ("email", JVal.jstr "b@x.com")]

/-- The server state for the reassignment witness. -/
def estadoC7 : ServerState := ⟨[linhaC7], [usuarioC7], [], [], [], 2⟩

/-- Witness for `C7_reatribuicao_existente`: reassigning the demand that
already lists assignee 5 to user 5. -/
theorem C7_reatribuicao_existente_witness :
    ∃ novo st2, reassignDemanda estadoC7 1
        [("novoAtribuidoId", JVal.jnum 5), ("motivo", JVal.jstr "carga")]
        "02/01/2025" "2025-01-02T00:00:00.000Z" "10.0.0.1"
        = (.reatribuida (normalizarDadosDemanda novo), st2)
      ∧ jget novo "atribuidos" = .jstr (jsonStringify (.jarr
          [JVal.jobj [("id", JVal.jnum 5), ("nome", JVal.jstr "Bob"),
                      ("email", JVal.jstr "b@x.com")]]))
      ∧ jget novo "status" = .jstr "atribuida_pendente_aceitacao"
      ∧ jget novo "comentarioGestor" = .jstr (jsToString (jor (jget linhaC7 "comentarioGestor") (.jstr ""))
          ++ "\n[Reatribuído em " ++ "02/01/2025" ++ " para " ++ jsToString (jget usuarioC7 "nome")
          ++ ": " ++ jsToString (jget [("novoAtribuidoId", JVal.jnum 5), ("motivo", JVal.jstr "carga")] "motivo") ++ "]")
      ∧ st2.auditoria = estadoC7.auditoria ++
          [{ acao := "REASSIGN", tabela := "demandas", registroId := .jnum 1,
             dadosAntigos := jsonStringify (.jobj [("atribuidos", jget linhaC7 "atribuidos"),
                                                   ("status", jget linhaC7 "status")]),
             dadosNovos := jsonStringify (.jobj [("atribuidos", .jarr
                 [JVal.jobj [("id", JVal.jnum 5), ("nome", JVal.jstr "Bob"),
                             ("email", JVal.jstr "b@x.com")]]),
                                                 ("status", .jstr "atribuida_pendente_aceitacao")]),
             usuarioId := jor (jget [("novoAtribuidoId", JVal.jnum 5), ("motivo", JVal.jstr "carga")] "usuarioId") .jnull,
             ip := "10.0.0.1" }]
      ∧ st2.demandas = (substituirDemanda estadoC7 1 (jset (jset (jset (jset linhaC7
          "atribuidos" (.jstr (jsonStringify (.jarr
            [JVal.jobj [("id", JVal.jnum 5), ("nome", JVal.jstr "Bob"),
                        ("email", JVal.jstr "b@x.com")]]))))
          "status" (.jstr "atribuida_pendente_aceitacao"))
          "comentarioGestor" (.jstr (jsToString (jor (jget linhaC7 "comentarioGestor") (.jstr ""))
            ++ "\n[Reatribuído em " ++ "02/01/2025" ++ " para " ++ jsToString (jget usuarioC7 "nome")
            ++ ": " ++ jsToString (jget [("novoAtribuidoId", JVal.jnum 5), ("motivo", JVal.jstr "carga")] "motivo") ++ "]")))
          "dataAtualizacao" (.jstr "2025-01-02T00:00:00.000Z"))).demandas :=
  C7_reatribuicao_existente estadoC7 1
    [("novoAtribuidoId", JVal.jnum 5), ("motivo", JVal.jstr "carga")]
    linhaC7 usuarioC7
    [JVal.jobj [("id", JVal.jnum 5), ("nome", JVal.jstr "Bob"), ("email", JVal.jstr "b@x.com")]]
    "02/01/2025" "2025-01-02T00:00:00.000Z" "10.0.0.1"
    rfl rfl rfl rfl rfl rfl

/-! ## Backup retention sweep (`agendarBackups`, src/server.js lines 1552-1578)

The daily sweep lists the backup directory, keeps only filenames starting
with `backup_auto_`, sorts them with the default `Array.sort()` (code-unit
lexicographic) and unlinks the first `length - 10` entries when more than
10 exist.  The string order is modelled by the executable `ltChars`
comparison and an insertion sort (`Array.sort` is stable and its default
comparator is exactly this lexicographic order). -/

/-- Code-unit lexicographic strict comparison of strings. -/
def ltChars : List Char → List Char → Bool
  | [], [] => false
  | [], _ :: _ => true
  | _ :: _, [] => false
  | c :: cs, d :: ds => if c < d then true else if d < c then false else ltChars cs ds

/-- The non-strict order JavaScript default sort realizes. -/
def leJS (a b : String) : Prop := ltChars b.data a.data = false

instance : DecidableRel leJS := fun a b =>
  inferInstanceAs (Decidable (ltChars b.data a.data = false))

theorem ltChars_irrefl (a : List Char) : ltChars a a = false := by
  induction a with
  | nil => rfl
  | cons c cs ih => simp [ltChars, ih]

theorem ltChars_trans (a : List Char) : ∀ b c, ltChars a b = true → ltChars b c = true →
    ltChars a c = true := by
  induction a with
  | nil =>
      intro b c hab hbc
      cases b with
      | nil => simp [ltChars] at hab
      | cons y ys =>
          cases c with
          | nil => simp [ltChars] at hbc
          | cons z zs => simp [ltChars]
  | cons x xs ih =>
      intro b c hab hbc
      cases b with
      | nil => simp [ltChars] at hab
      | cons y ys =>
          cases c with
          | nil => simp [ltChars] at hbc
          | cons z zs =>
              simp only [ltChars] at hab hbc ⊢
              rcases lt_trichotomy x y with hxy | hxy | hxy
              · rcases lt_trichotomy y z with hyz | hyz | hyz
                · simp [lt_trans hxy hyz]
                · subst hyz; simp [hxy]
                · rw [if_pos hxy] at hab
                  rw [if_neg (lt_asymm hyz), if_pos hyz] at hbc
                  cases hbc
              · subst hxy
                rw [if_neg (lt_irrefl x), if_neg (lt_irrefl x)] at hab
                rcases lt_trichotomy x z with hyz | hyz | hyz
                · simp [hyz]
                · subst hyz
                  rw [if_neg (lt_irrefl x), if_neg (lt_irrefl x)] at hbc
                  simp [lt_irrefl x, ih ys zs hab hbc]
                · rw [if_neg (lt_asymm hyz), if_pos hyz] at hbc
                  cases hbc
              · rw [if_neg (lt_asymm hxy), if_pos hxy] at hab
                cases hab
  
theorem ltChars_trichotomy (a : List Char) : ∀ b,
    ltChars a b = true ∨ a = b ∨ ltChars b a = true := by
  induction a with
  | nil =>
      intro b
      cases b with
      | nil => right; left; rfl
      | cons y ys => left; rfl
  | cons x xs ih =>
      intro b
      cases b with
      | nil => right; right; rfl
      | cons y ys =>
          rcases lt_trichotomy x y with hxy | hxy | hxy
          · left; simp [ltChars, hxy]
          · subst hxy
            rcases ih ys with h | h | h
            · left; simp [ltChars, lt_irrefl, h]
            · right; left; rw [h]
            · right; right; simp [ltChars, lt_irrefl, h]
          · right; right; simp [ltChars, hxy]

instance : IsTotal String leJS := by
  constructor
  intro a b
  unfold leJS
  by_contra hcon
  push_neg at hcon
  obtain ⟨h1, h2⟩ := hcon
  have h1b : ltChars b.data a.data = true := by simpa using h1
  have h2b : ltChars a.data b.data = true := by simpa using h2
  have := ltChars_trans a.data b.data a.data h2b h1b
  rw [ltChars_irrefl] at this
  cases this

instance : IsTrans String leJS := by
  constructor
  intro a b c hab hbc
  unfold leJS at hab hbc ⊢
  by_contra hca
  simp only [Bool.not_eq_false] at hca
  rcases ltChars_trichotomy c.data b.data with h | h | h
  · rw [h] at hbc; cases hbc
  · rw [← h] at hab; rw [hca] at hab; cases hab
  · have := ltChars_trans b.data c.data a.data h hca
    rw [this] at hab
    cases hab

/-- JavaScript `s.startsWith(pre)`. -/
def strStartsWith (s pre : String) : Bool :=
  decide (s.data.take pre.data.length = pre.data)

/-- The default `Array.sort()` on strings: a stable sort under the
code-unit lexicographic order. -/
def ordenarJS (l : List String) : List String := List.insertionSort leJS l

/-- The daily retention sweep of `agendarBackups`: among the directory
entries, the filenames starting with `backup_auto_` are counted, and when
more than 10 exist the first `length - 10` entries of the sorted list
(the lexicographically smallest, i.e. oldest timestamps) are unlinked.
The function returns the list of files the sweep removes. -/
def limparBackupsAntigos (files : List String) : List String :=
  let backupFiles := files.filter (fun f => strStartsWith f "backup_auto_")
  if 10 < backupFiles.length then
    (ordenarJS backupFiles).take ((ordenarJS backupFiles).length - 10)
  else []

example : limparBackupsAntigos ["backup_auto_b", "backup_manual_a"] = [] := by decide

theorem sweep_nucleo (autos : List String) (hnda : autos.Nodup)
    (hgt : 10 < autos.length) :
    ((autos.filter (fun f =>
        !(((ordenarJS autos).take ((ordenarJS autos).length - 10)).contains f))).length = 10)
    ∧ (∀ f ∈ (ordenarJS autos).take ((ordenarJS autos).length - 10),
        ∀ g ∈ autos, g ∉ (ordenarJS autos).take ((ordenarJS autos).length - 10) →
        leJS f g) := by
  have hperm : (ordenarJS autos).Perm autos := List.perm_insertionSort leJS autos
  have hsorted : List.Sorted leJS (ordenarJS autos) := List.sorted_insertionSort leJS autos
  have hlen : (ordenarJS autos).length = autos.length := hperm.length_eq
  have hnds : (ordenarJS autos).Nodup := hperm.nodup_iff.mpr hnda
  have hdisj : List.Disjoint ((ordenarJS autos).take ((ordenarJS autos).length - 10))
      ((ordenarJS autos).drop ((ordenarJS autos).length - 10)) :=
    List.disjoint_take_drop hnds (le_refl _)
  constructor
  · obtain ⟨removed, hrem⟩ : ∃ r : List String,
        r = (ordenarJS autos).take ((ordenarJS autos).length - 10) := ⟨_, rfl⟩
    rw [← hrem]
    have hpf := hperm.filter (fun f => !(removed.contains f))
    rw [← hpf.length_eq]
    have hsplit : ordenarJS autos = (ordenarJS autos).take ((ordenarJS autos).length - 10)
        ++ (ordenarJS autos).drop ((ordenarJS autos).length - 10) :=
      (List.take_append_drop _ _).symm
    rw [← hrem] at hsplit
    rw [hsplit, List.filter_append]
    have h1 : removed.filter (fun f => !(removed.contains f)) = [] := by
      rw [List.filter_eq_nil_iff]
      intro a ha
      simp [List.elem_iff, ha]
    have h2 : ((ordenarJS autos).drop ((ordenarJS autos).length - 10)).filter
        (fun f => !(removed.contains f))
        = (ordenarJS autos).drop ((ordenarJS autos).length - 10) := by
      rw [List.filter_eq_self]
      intro a ha
      simp only [Bool.not_eq_eq_eq_not, Bool.not_true, List.contains_eq_any_beq]
      rw [hrem]
      simp only [List.any_eq_false]
      intro b hb
      have hne : ¬(a = b) := by
        intro he
        rw [← he] at hb
        exact hdisj hb ha
      simpa using hne
    rw [h1, h2, List.nil_append, List.length_drop]
    omega
  · intro f hf g hg hgnot
    have hgsorted : g ∈ ordenarJS autos := hperm.mem_iff.mpr hg
    have hgsplit : g ∈ (ordenarJS autos).take ((ordenarJS autos).length - 10)
        ++ (ordenarJS autos).drop ((ordenarJS autos).length - 10) := by
      rw [List.take_append_drop]
      exact hgsorted
    have hgdrop : g ∈ (ordenarJS autos).drop ((ordenarJS autos).length - 10) := by
      rcases List.mem_append.mp hgsplit with h | h
      · exact absurd h hgnot
      · exact h
    have hpair : List.Pairwise leJS (ordenarJS autos) := hsorted
    rw [← List.take_append_drop ((ordenarJS autos).length - 10) (ordenarJS autos)] at hpair
    exact (List.pairwise_append.mp hpair).2.2 f hf g hgdrop

/-- Claim C8: the sweep considers only `backup_auto_` files (so manually-
and event-triggered snapshots, named `backup_manual_`, `backup_shutdown_`,
`backup_status_change_`, `backup_delete_`, `backup_batch_import_`, are
never deleted); with at most 10 automatic files nothing is removed; with
more than 10, the removed files are the lexicographically smallest
(oldest timestamp-encoded names) and exactly 10 automatic files remain. -/
theorem C8_retencao_backups (files : List String) (hnd : files.Nodup) :
    (∀ f ∈ limparBackupsAntigos files, strStartsWith f "backup_auto_" = true)
    ∧ ((files.filter (fun f => strStartsWith f "backup_auto_")).length ≤ 10 →
        limparBackupsAntigos files = [])
    ∧ (10 < (files.filter (fun f => strStartsWith f "backup_auto_")).length →
        (((files.filter (fun f => strStartsWith f "backup_auto_")).filter (fun f =>
            !((limparBackupsAntigos files).contains f))).length = 10
        ∧ (∀ f ∈ limparBackupsAntigos files, ∀ g ∈ files,
            strStartsWith g "backup_auto_" = true → g ∉ limparBackupsAntigos files →
            leJS f g))) := by
  refine ⟨?_, ?_, ?_⟩
  · intro f hf
    simp only [limparBackupsAntigos] at hf
    by_cases hlen : 10 < (files.filter (fun f => strStartsWith f "backup_auto_")).length
    · rw [if_pos hlen] at hf
      have hmem : f ∈ ordenarJS (files.filter (fun f => strStartsWith f "backup_auto_")) :=
        List.take_subset _ _ hf
      have hmem2 : f ∈ files.filter (fun f => strStartsWith f "backup_auto_") :=
        (List.perm_insertionSort leJS _).mem_iff.mp hmem
      exact (List.mem_filter.mp hmem2).2
    · rw [if_neg hlen] at hf
      simp at hf
  · intro hle
    simp only [limparBackupsAntigos]
    rw [if_neg (by omega)]
  · intro hgt
    have hrem : limparBackupsAntigos files
        = (ordenarJS (files.filter (fun f => strStartsWith f "backup_auto_"))).take
            ((ordenarJS (files.filter (fun f => strStartsWith f "backup_auto_"))).length - 10) := by
      simp only [limparBackupsAntigos]
      rw [if_pos hgt]
    have hcore := sweep_nucleo (files.filter (fun f => strStartsWith f "backup_auto_"))
      (hnd.filter _) hgt
    constructor
    · rw [hrem]
      exact hcore.1
    · intro f hf g hg hgauto hgnot
      rw [hrem] at hf hgnot
      exact hcore.2 f hf g (List.mem_filter.mpr ⟨hg, hgauto⟩) hgnot

/-- The 15 automatically-triggered snapshot filenames of the claim example. -/
def arquivosExemploC8 : List String :=
  ["backup_auto_2025-01-15T00-00-00", "backup_auto_2025-01-03T00-00-00",
   "backup_auto_2025-01-07T00-00-00", "backup_auto_2025-01-01T00-00-00",
   "backup_auto_2025-01-11T00-00-00", "backup_auto_2025-01-05T00-00-00",
   "backup_auto_2025-01-09T00-00-00", "backup_auto_2025-01-02T00-00-00",
   "backup_auto_2025-01-13T00-00-00", "backup_auto_2025-01-04T00-00-00",
   "backup_auto_2025-01-08T00-00-00", "backup_auto_2025-01-06T00-00-00",
   "backup_auto_2025-01-12T00-00-00", "backup_auto_2025-01-10T00-00-00",
   "backup_auto_2025-01-14T00-00-00"]

/-- Witness for `C8_retencao_backups`: with 15 automatic snapshot files
and no manual ones the sweep deletes exactly the 5 oldest and leaves
exactly 10, as checked both through the theorem and by direct
evaluation. -/
theorem C8_retencao_backups_witness :
    (((arquivosExemploC8.filter (fun f => strStartsWith f "backup_auto_")).filter (fun f =>
        !((limparBackupsAntigos arquivosExemploC8).contains f))).length = 10
      ∧ (∀ f ∈ limparBackupsAntigos arquivosExemploC8, ∀ g ∈ arquivosExemploC8,
          strStartsWith g "backup_auto_" = true → g ∉ limparBackupsAntigos arquivosExemploC8 →
          leJS f g))
    ∧ limparBackupsAntigos arquivosExemploC8
      = ["backup_auto_2025-01-01T00-00-00", "backup_auto_2025-01-02T00-00-00",
         "backup_auto_2025-01-03T00-00-00", "backup_auto_2025-01-04T00-00-00",
         "backup_auto_2025-01-05T00-00-00"] :=
  ⟨(C8_retencao_backups arquivosExemploC8 (by decide)).2.2 (by decide), by decide⟩

/-! ## Batch import (POST /api/demandas/batch, src/server.js lines 2505-2645)

Items are processed independently inside one transaction; a per-item
database error (NOT NULL violation or a non-bindable value) increments
`errorCount` without aborting the batch, a thrown error on a non-object
item is caught by the per-item `try/catch`, and `INSERT OR REPLACE`
resolves `id`/`tag` uniqueness conflicts by replacing.  `Date.now()` and
the `Date.now() + Math.random()` id generator are injected as the
`nowMs`/`genId` parameters. -/

/-- One normalized batch item with its id and tag defaults applied. -/
def itemLote (demanda : JObj) (genId : JVal) (nowMs idx : Nat) : JObj :=
  let d1 := normalizarDadosDemanda demanda
  let d2 := if truthy (jget d1 "id") = false then jset d1 "id" genId else d1
  if truthy (jget d2 "tag") = false then
    jset d2 "tag" (.jstr ("DEM-IMP-" ++ natRepr nowMs ++ "-" ++ natRepr idx))
  else d2

/-- The INSERT OR REPLACE parameter list of one batch item, in source
order. -/
def colunasLote (dn : JObj) : List (String × JVal) :=
  [("id", jget dn "id"),
   ("funcionarioId", jget dn "funcionarioId"),
   ("nomeFuncionario", jget dn "nomeFuncionario"),
   ("emailFuncionario", jget dn "emailFuncionario"),
   ("categoria", jget dn "categoria"),
   ("prioridade", jget dn "prioridade"),
   ("complexidade", jget dn "complexidade"),
   ("descricao", jget dn "descricao"),
   ("local", jget dn "local"),
   ("dataCriacao", jget dn "dataCriacao"),
   ("dataLimite", jget dn "dataLimite"),
   ("status", jor (jget dn "status") (.jstr "pendente")),
   ("isRotina", .jnum (if truthy (jget dn "isRotina") then 1 else 0)),
   ("diasSemana", .jstr (jsonStringify (jget dn "diasSemana"))),
   ("tag", jget dn "tag"),
   ("comentarios", jor (jget dn "comentarios") (.jstr "")),
   ("comentarioGestor", jor (jget dn "comentarioGestor") (.jstr "")),
   ("dataConclusao", jor (jget dn "dataConclusao") .jnull),
   ("atribuidos", .jstr (jsonStringify (jget dn "atribuidos"))),
   ("anexosCriacao", .jstr (jsonStringify (jget dn "anexosCriacao"))),
   ("anexosResolucao", .jstr (jsonStringify (jget dn "anexosResolucao"))),
   ("comentarioReprovacaoAtribuicao", jor (jget dn "comentarioReprovacaoAtribuicao") (.jstr "")),
   ("nomeDemanda", jget dn "nomeDemanda"),
   ("comentariosUsuarios", .jstr (jsonStringify (jor (jget dn "comentariosUsuarios") (.jarr []))))]

/-- The stored row of one (indexed) batch item. -/
def linhaLote (genId : Nat → JVal) (nowMs : Nat) (p : Nat × JVal) : JObj :=
  match p.2 with
  | .jobj o => ligarColunas (colunasLote (itemLote o (genId p.1) nowMs p.1))
  | _ => []

/-- Whether the database accepts one (indexed) batch item: the item is an
object, every bound parameter has a bindable type and no NOT NULL column
binds NULL (`INSERT OR REPLACE` resolves uniqueness conflicts instead of
failing; a non-object item throws into the per-item catch). -/
def itemSucede (genId : Nat → JVal) (nowMs : Nat) (p : Nat × JVal) : Bool :=
  match p.2 with
  | .jobj o =>
      colunasBindaveis (colunasLote (itemLote o (genId p.1) nowMs p.1))
        && notNullOk (ligarColunas (colunasLote (itemLote o (genId p.1) nowMs p.1)))
  | _ => false

/-- `INSERT OR REPLACE`: delete every row conflicting on the `id` primary
key or the non-NULL UNIQUE `tag`, then insert. -/
def upsertLinha (demandas : List JObj) (row : JObj) : List JObj :=
  demandas.filter (fun r =>
    !(jsStrictEq (jget r "id") (jget row "id"))
    && !(match jget row "tag" with
         | JVal.jnull => false
         | t => jsStrictEq (jget r "tag") t)) ++ [row]

/-- The accumulator of the per-item loop. -/
structure AccLote where
  st : ServerState
  successCount : Nat
  errorCount : Nat
  errors : List String
  results : List JObj

/-- One iteration of the per-item loop. -/
def passoLote (genId : Nat → JVal) (nowMs : Nat) (acc : AccLote) (p : Nat × JVal) : AccLote :=
  if itemSucede genId nowMs p then
    { acc with
      st := { acc.st with demandas := upsertLinha acc.st.demandas (linhaLote genId nowMs p) },
      successCount := acc.successCount + 1,
      results := acc.results ++
        [[("id", jget (linhaLote genId nowMs p) "id"),
          ("tag", jget (linhaLote genId nowMs p) "tag"),
          ("nome", jget (linhaLote genId nowMs p) "nomeDemanda"),
          ("status", JVal.jstr "success")]] }
  else
    { acc with
      errorCount := acc.errorCount + 1,
      errors := acc.errors ++ ["Erro na demanda " ++ natRepr (p.1 + 1)] }

/-- The aggregate response of the batch endpoint. -/
structure ResultadoLote where
  successCount : Nat
  errorCount : Nat
  errors : List String
  results : List JObj
deriving Repr

/-- Outcome of the batch endpoint. -/
inductive RespostaLote where
  | invalida (msg : String)
  | concluida (r : ResultadoLote)

/-- The POST /api/demandas/batch handler: reject a non-array body,
process every item independently, commit, trigger a `batch_import`
backup when at least one item succeeded, and respond with the counts and
the first 20 errors / first 50 results. -/
def batchDemandas (st : ServerState) (corpo : JObj) (genId : Nat → JVal) (nowMs : Nat) :
    RespostaLote × ServerState :=
  match jget corpo "demandas" with
  | .jarr itens =>
    let fin := itens.enum.foldl (passoLote genId nowMs) ⟨st, 0, 0, [], []⟩
    let st2 := if 0 < fin.successCount then criarBackup fin.st "batch_import" else fin.st
    (.concluida ⟨fin.successCount, fin.errorCount, fin.errors.take 20, fin.results.take 50⟩, st2)
  | _ => (.invalida "Formato inválido. Envie um array de demandas.", st)

/-- Absence of an `INSERT OR REPLACE` conflict between a stored row and a
newly inserted row. -/
def semConflito (row rowQ : JObj) : Prop :=
  jsStrictEq (jget row "id") (jget rowQ "id") = false
  ∧ (match jget rowQ "tag" with
     | JVal.jnull => false
     | t => jsStrictEq (jget row "tag") t) = false

/-- Pairwise conflict-freedom of two successful batch items. -/
def relLote (genId : Nat → JVal) (nowMs : Nat) (p q : Nat × JVal) : Prop :=
  itemSucede genId nowMs p = true → itemSucede genId nowMs q = true →
    semConflito (linhaLote genId nowMs p) (linhaLote genId nowMs q)
    ∧ semConflito (linhaLote genId nowMs q) (linhaLote genId nowMs p)

theorem filtroComplementar {α : Type} (p : α → Bool) (l : List α) :
    (l.filter p).length + (l.filter (fun a => !(p a))).length = l.length := by
  induction l with
  | nil => rfl
  | cons a rest ih =>
      by_cases h : p a = true <;> simp [List.filter_cons, h, ← ih] <;> omega

theorem loteContagens (genId : Nat → JVal) (nowMs : Nat) (itens : List (Nat × JVal)) :
    ∀ acc : AccLote,
    ((itens.foldl (passoLote genId nowMs) acc).successCount
      = acc.successCount + (itens.filter (itemSucede genId nowMs)).length)
    ∧ ((itens.foldl (passoLote genId nowMs) acc).errorCount
      = acc.errorCount + (itens.filter (fun p => !(itemSucede genId nowMs p))).length)
    ∧ ((itens.foldl (passoLote genId nowMs) acc).errors.length
      = acc.errors.length + (itens.filter (fun p => !(itemSucede genId nowMs p))).length)
    ∧ ((itens.foldl (passoLote genId nowMs) acc).results.length
      = acc.results.length + (itens.filter (itemSucede genId nowMs)).length)
    ∧ ((itens.foldl (passoLote genId nowMs) acc).st.backups = acc.st.backups) := by
  induction itens with
  | nil => intro acc; simp
  | cons q rest ih =>
      intro acc
      simp only [List.foldl_cons]
      obtain ⟨i1, i2, i3, i4, i5⟩ := ih (passoLote genId nowMs acc q)
      refine ⟨?_, ?_, ?_, ?_, ?_⟩
      · rw [i1]
        by_cases hok : itemSucede genId nowMs q = true <;>
          simp [passoLote, hok, List.filter_cons] <;> omega
      · rw [i2]
        by_cases hok : itemSucede genId nowMs q = true <;>
          simp [passoLote, hok, List.filter_cons] <;> omega
      · rw [i3]
        by_cases hok : itemSucede genId nowMs q = true <;>
          simp [passoLote, hok, List.filter_cons] <;> omega
      · rw [i4]
        by_cases hok : itemSucede genId nowMs q = true <;>
          simp [passoLote, hok, List.filter_cons] <;> omega
      · rw [i5]
        by_cases hok : itemSucede genId nowMs q = true <;>
          simp [passoLote, hok]

theorem lotePreserva (genId : Nat → JVal) (nowMs : Nat) (itens : List (Nat × JVal)) :
    ∀ acc row, row ∈ acc.st.demandas →
    (∀ q ∈ itens, itemSucede genId nowMs q = true →
      semConflito row (linhaLote genId nowMs q)) →
    row ∈ (itens.foldl (passoLote genId nowMs) acc).st.demandas := by
  induction itens with
  | nil => intro acc row hrow _; exact hrow
  | cons q rest ih =>
      intro acc row hrow hq
      simp only [List.foldl_cons]
      apply ih
      · by_cases hok : itemSucede genId nowMs q = true
        · simp only [passoLote, if_pos hok]
          obtain ⟨hc1, hc2⟩ := hq q (List.mem_cons_self q rest) hok
          apply List.mem_append_left
          rw [List.mem_filter]
          refine ⟨hrow, ?_⟩
          simp [hc1, hc2]
        · simp only [passoLote, if_neg hok]
          exact hrow
      · intro q2 hq2 hok2
        exact hq q2 (List.mem_cons_of_mem q hq2) hok2

theorem loteMembro (genId : Nat → JVal) (nowMs : Nat) (itens : List (Nat × JVal))
    (hpw : List.Pairwise (relLote genId nowMs) itens) :
    ∀ acc, ∀ p ∈ itens, itemSucede genId nowMs p = true →
      linhaLote genId nowMs p ∈ (itens.foldl (passoLote genId nowMs) acc).st.demandas := by
  induction itens with
  | nil => intro acc p hp; simp at hp
  | cons q rest ih =>
      intro acc p hp hok
      rw [List.pairwise_cons] at hpw
      rcases List.mem_cons.mp hp with hpq | hpr
      · subst hpq
        simp only [List.foldl_cons]
        apply lotePreserva
        · simp only [passoLote, if_pos hok]
          exact List.mem_append_right _ (List.mem_singleton.mpr rfl)
        · intro q2 hq2 hok2
          exact (hpw.1 q2 hq2 hok hok2).1
      · simp only [List.foldl_cons]
        exact ih hpw.2 (passoLote genId nowMs acc q) p hpr hok

/-- Claim C9: one item's failure does not abort the batch; the response
counts the successes and failures exactly, the returned error and result
samples are capped at 20 and 50, a `batch_import` backup fires when
anything succeeded, and (for items with no id/tag collisions among
themselves) every accepted item's row is persisted in the final table. -/
theorem C9_importacao_lote (st : ServerState) (corpo : JObj) (genId : Nat → JVal)
    (nowMs : Nat) (itens : List JVal)
    (hdem : jget corpo "demandas" = .jarr itens) :
    ∃ r st2, batchDemandas st corpo genId nowMs = (.concluida r, st2)
    ∧ r.successCount = (itens.enum.filter (itemSucede genId nowMs)).length
    ∧ r.errorCount = (itens.enum.filter (fun p => !(itemSucede genId nowMs p))).length
    ∧ r.successCount + r.errorCount = itens.length
    ∧ r.errors.length = min 20 r.errorCount
    ∧ r.results.length = min 50 r.successCount
    ∧ st2.backups = st.backups ++ (if 0 < r.successCount then ["batch_import"] else [])
    ∧ (List.Pairwise (relLote genId nowMs) itens.enum →
        ∀ p ∈ itens.enum, itemSucede genId nowMs p = true →
          linhaLote genId nowMs p ∈ st2.demandas) := by
  obtain ⟨c1, c2, c3, c4, c5⟩ :=
    loteContagens genId nowMs itens.enum ⟨st, 0, 0, [], []⟩
  set fin := itens.enum.foldl (passoLote genId nowMs)
    (⟨st, 0, 0, [], []⟩ : AccLote) with hfin
  refine ⟨⟨fin.successCount, fin.errorCount, fin.errors.take 20, fin.results.take 50⟩,
         (if 0 < fin.successCount then criarBackup fin.st "batch_import" else fin.st),
         ?_, ?_, ?_, ?_, ?_, ?_, ?_, ?_⟩
  · simp only [batchDemandas, hdem, hfin]
  · simpa using c1
  · simpa using c2
  · rw [c1, c2]
    simp only [Nat.zero_add]
    rw [filtroComplementar]
    exact List.enum_length
  · simp only [ResultadoLote.errors]
    rw [List.length_take, c3, c2]
    simp
  · simp only [ResultadoLote.results]
    rw [List.length_take, c4, c1]
    simp
  · by_cases hpos : 0 < (itens.enum.foldl (passoLote genId nowMs) ⟨st, 0, 0, [], []⟩).successCount
    · simp only [if_pos hpos, criarBackup_backups, c5]
    · simp only [if_neg hpos, c5, List.append_nil]
  · intro hpw p hp hok
    have hmem := loteMembro genId nowMs itens.enum hpw ⟨st, 0, 0, [], []⟩ p hp hok
    by_cases hpos : 0 < (itens.enum.foldl (passoLote genId nowMs) ⟨st, 0, 0, [], []⟩).successCount
    · simpa [if_pos hpos, criarBackup_demandas] using hmem
    · simpa [if_neg hpos] using hmem

/-- Concrete valid batch item for the C9 witness: every NOT NULL column
of the table is supplied, no id and no tag. -/
def itemValidoC9 : JVal :=
  .jobj [("funcionarioId", .jnum 7), ("nomeFuncionario", .jstr "Ana"),
         ("emailFuncionario", .jstr "ana@ex.com"), ("categoria", .jstr "TI"),
         ("prioridade", .jstr "alta"), ("complexidade", .jstr "baixa"),
         ("descricao", .jstr "Instalar impressora"), ("local", .jstr "Sede"),
         ("dataCriacao", .jstr "2026-01-01T10:00:00Z"),
         ("dataLimite", .jstr "2026-02-01"), ("nomeDemanda", .jstr "Impressora")]

/-- C9 witness request body: one valid item followed by a non-object
item that throws into the per-item catch. -/
def corpoC9 : JObj := [("demandas", .jarr [itemValidoC9, .jnull])]

/-- Empty server state for the C9 witness. -/
def estadoC9 : ServerState := ⟨[], [], [], [], [], 1⟩

/-- Witness for C9: on a two-item batch with one valid and one invalid
item the endpoint completes with successCount 1 and errorCount 1. -/
theorem C9_importacao_lote_witness :
    ∃ r st2, batchDemandas estadoC9 corpoC9 (fun i => JVal.jnum (1000 + (i : Int))) 5
        = (.concluida r, st2)
      ∧ r.successCount = 1 ∧ r.errorCount = 1 := by
  obtain ⟨r, st2, h1, h2, h3, _⟩ :=
    C9_importacao_lote estadoC9 corpoC9 (fun i => JVal.jnum (1000 + (i : Int))) 5
      [itemValidoC9, JVal.jnull] (by rfl)
  exact ⟨r, st2, h1, by rw [h2]; rfl, by rw [h3]; rfl⟩
